import Mathlib

/-!
# The ALSA to sndio PCM I/O plugin (`pcm_sndio.c`)

A shallow embedding of the adapter in `pcm_sndio.c`.

Conventions of the embedding:

* `unsigned int` values are natural numbers, reduced modulo `2^32` wherever the
  C code computes or truncates them; `snd_pcm_uframes_t` and `size_t` values are
  natural numbers reduced modulo `2^64` (LP64).
* `snd_pcm_sframes_t` counters (`ptr`, `realptr`) are integers.  Overflow of a
  signed counter is undefined behaviour in C and is outside the embedding.
* A division by `bpf = 0` is undefined behaviour; the functions that divide
  return `none` there.
* The backend (libsndio) and the host (alsa-lib) are the environment: every
  adapter function takes the values the environment returns to it as arguments
  and reports the backend calls it issued, in order.
-/

namespace PcmSndio

/-! ## Constants of the system headers -/

/-- Value of `EINVAL` in the Linux `errno.h`. -/
def EINVAL : Int := 22

/-- Value of `EIO` in the Linux `errno.h`. -/
def EIO : Int := 5

/-- Value of `EBADFD` in the Linux `errno.h`. -/
def EBADFD : Int := 77

/-- Value of `EAGAIN` in the Linux `errno.h`. -/
def EAGAIN : Int := 11

/-- Value of `ENOMEM` in the Linux `errno.h`. -/
def ENOMEM : Int := 12

/-- Value of `ENOENT` in the Linux `errno.h`. -/
def ENOENT : Int := 2

/-- Number of values of an `unsigned int`. -/
def UINT_RANGE : Nat := 2 ^ 32

/-- Number of values of an `unsigned long` (`snd_pcm_uframes_t`, `size_t`). -/
def ULONG_RANGE : Nat := 2 ^ 64

/-- Conversion of an `unsigned long` value to `long` (`snd_pcm_sframes_t`):
values above `LONG_MAX` wrap to negative ones. -/
def toSframes (u : Nat) : Int :=
  if u % ULONG_RANGE < 2 ^ 63 then ((u % ULONG_RANGE : Nat) : Int)
  else ((u % ULONG_RANGE : Nat) : Int) - (ULONG_RANGE : Int)

/-- Conversion of a `long` value to `unsigned long`. -/
def toUframes (i : Int) : Nat :=
  (i % (ULONG_RANGE : Int)).toNat

/-! ## Host (alsa-lib) types -/

/-- The sample formats of alsa-lib, `snd_pcm_format_t`. -/
inductive snd_pcm_format_t
  | SND_PCM_FORMAT_S8
  | SND_PCM_FORMAT_U8
  | SND_PCM_FORMAT_S16_LE
  | SND_PCM_FORMAT_S16_BE
  | SND_PCM_FORMAT_U16_LE
  | SND_PCM_FORMAT_U16_BE
  | SND_PCM_FORMAT_S24_LE
  | SND_PCM_FORMAT_S24_BE
  | SND_PCM_FORMAT_U24_LE
  | SND_PCM_FORMAT_U24_BE
  | SND_PCM_FORMAT_S32_LE
  | SND_PCM_FORMAT_S32_BE
  | SND_PCM_FORMAT_U32_LE
  | SND_PCM_FORMAT_U32_BE
  | SND_PCM_FORMAT_FLOAT_LE
  | SND_PCM_FORMAT_FLOAT_BE
  | SND_PCM_FORMAT_FLOAT64_LE
  | SND_PCM_FORMAT_FLOAT64_BE
  | SND_PCM_FORMAT_IEC958_SUBFRAME_LE
  | SND_PCM_FORMAT_IEC958_SUBFRAME_BE
  | SND_PCM_FORMAT_MU_LAW
  | SND_PCM_FORMAT_A_LAW
  | SND_PCM_FORMAT_IMA_ADPCM
  | SND_PCM_FORMAT_MPEG
  | SND_PCM_FORMAT_GSM
  | SND_PCM_FORMAT_S20_LE
  | SND_PCM_FORMAT_S20_BE
  | SND_PCM_FORMAT_U20_LE
  | SND_PCM_FORMAT_U20_BE
  | SND_PCM_FORMAT_SPECIAL
  | SND_PCM_FORMAT_S24_3LE
  | SND_PCM_FORMAT_S24_3BE
  | SND_PCM_FORMAT_U24_3LE
  | SND_PCM_FORMAT_U24_3BE
  | SND_PCM_FORMAT_S20_3LE
  | SND_PCM_FORMAT_S20_3BE
  | SND_PCM_FORMAT_U20_3LE
  | SND_PCM_FORMAT_U20_3BE
  | SND_PCM_FORMAT_S18_3LE
  | SND_PCM_FORMAT_S18_3BE
  | SND_PCM_FORMAT_U18_3LE
  | SND_PCM_FORMAT_U18_3BE
  | SND_PCM_FORMAT_G723_24
  | SND_PCM_FORMAT_G723_24_1B
  | SND_PCM_FORMAT_G723_40
  | SND_PCM_FORMAT_G723_40_1B
  | SND_PCM_FORMAT_DSD_U8
  | SND_PCM_FORMAT_DSD_U16_LE
  | SND_PCM_FORMAT_DSD_U32_LE
  | SND_PCM_FORMAT_DSD_U16_BE
  | SND_PCM_FORMAT_DSD_U32_BE
  | SND_PCM_FORMAT_UNKNOWN
  deriving DecidableEq, Repr

open snd_pcm_format_t

/-- The stream direction, `snd_pcm_stream_t`. -/
inductive snd_pcm_stream_t
  | SND_PCM_STREAM_PLAYBACK
  | SND_PCM_STREAM_CAPTURE
  deriving DecidableEq, Repr

open snd_pcm_stream_t

/-- Modelled from the spec: `snd_pcm_format_physical_width` is a function of
alsa-lib, not of `src/`; it is "bits-per-sample rounded to containing byte
width" (spec 4.3), the number of bits one sample occupies in memory, and a
negative error code for a format without a fixed sample width. -/
def snd_pcm_format_physical_width : snd_pcm_format_t → Int
  | SND_PCM_FORMAT_S8 | SND_PCM_FORMAT_U8 => 8
  | SND_PCM_FORMAT_S16_LE | SND_PCM_FORMAT_S16_BE
  | SND_PCM_FORMAT_U16_LE | SND_PCM_FORMAT_U16_BE => 16
  | SND_PCM_FORMAT_S24_LE | SND_PCM_FORMAT_S24_BE
  | SND_PCM_FORMAT_U24_LE | SND_PCM_FORMAT_U24_BE => 32
  | SND_PCM_FORMAT_S32_LE | SND_PCM_FORMAT_S32_BE
  | SND_PCM_FORMAT_U32_LE | SND_PCM_FORMAT_U32_BE => 32
  | SND_PCM_FORMAT_FLOAT_LE | SND_PCM_FORMAT_FLOAT_BE => 32
  | SND_PCM_FORMAT_FLOAT64_LE | SND_PCM_FORMAT_FLOAT64_BE => 64
  | SND_PCM_FORMAT_IEC958_SUBFRAME_LE | SND_PCM_FORMAT_IEC958_SUBFRAME_BE => 32
  | SND_PCM_FORMAT_MU_LAW | SND_PCM_FORMAT_A_LAW => 8
  | SND_PCM_FORMAT_IMA_ADPCM => 4
  | SND_PCM_FORMAT_S20_LE | SND_PCM_FORMAT_S20_BE
  | SND_PCM_FORMAT_U20_LE | SND_PCM_FORMAT_U20_BE => 32
  | SND_PCM_FORMAT_S24_3LE | SND_PCM_FORMAT_S24_3BE
  | SND_PCM_FORMAT_U24_3LE | SND_PCM_FORMAT_U24_3BE
  | SND_PCM_FORMAT_S20_3LE | SND_PCM_FORMAT_S20_3BE
  | SND_PCM_FORMAT_U20_3LE | SND_PCM_FORMAT_U20_3BE
  | SND_PCM_FORMAT_S18_3LE | SND_PCM_FORMAT_S18_3BE
  | SND_PCM_FORMAT_U18_3LE | SND_PCM_FORMAT_U18_3BE => 24
  | SND_PCM_FORMAT_G723_24 => 3
  | SND_PCM_FORMAT_G723_24_1B => 8
  | SND_PCM_FORMAT_G723_40 => 5
  | SND_PCM_FORMAT_G723_40_1B => 8
  | SND_PCM_FORMAT_DSD_U8 => 8
  | SND_PCM_FORMAT_DSD_U16_LE | SND_PCM_FORMAT_DSD_U16_BE => 16
  | SND_PCM_FORMAT_DSD_U32_LE | SND_PCM_FORMAT_DSD_U32_BE => 32
  | SND_PCM_FORMAT_MPEG | SND_PCM_FORMAT_GSM | SND_PCM_FORMAT_SPECIAL
  | SND_PCM_FORMAT_UNKNOWN => -EINVAL

/-- The fields of `snd_pcm_ioplug_t` that the adapter reads: the host fills
them in before it calls the adapter. -/
structure snd_pcm_ioplug_t where
  /-- Direction of the stream, fixed at open. -/
  stream : snd_pcm_stream_t
  /-- Sample format chosen by the host. -/
  format : snd_pcm_format_t
  /-- Channel count chosen by the host, an `unsigned int`. -/
  channels : Nat
  /-- Sample rate chosen by the host, an `unsigned int`. -/
  rate : Nat
  /-- Ring buffer capacity in frames, a `snd_pcm_uframes_t`. -/
  buffer_size : Nat
  deriving DecidableEq, Repr

/-! ## Backend (libsndio) types -/

/-- The `struct sio_par` of libsndio; every field is an `unsigned int`. -/
structure sio_par where
  bits : Nat
  bps : Nat
  sig : Nat
  le : Nat
  msb : Nat
  rchan : Nat
  pchan : Nat
  rate : Nat
  bufsz : Nat
  xrun : Nat
  round : Nat
  appbufsz : Nat
  deriving DecidableEq, Repr

/-- Modelled from the spec: the macro `SIO_BPS` of `sndio.h` is not in `src/`;
it is the bytes-per-sample of the "containing byte width" of spec 4.3: one byte
up to 8 bits, two bytes up to 16 bits, four bytes above. -/
def SIO_BPS (bits : Nat) : Nat :=
  if bits ≤ 8 then 1 else if bits ≤ 16 then 2 else 4

/-- What `sio_initpar` of libsndio leaves in a `struct sio_par`: every field
holds the "unset" value `~0U`. -/
def sio_initpar : sio_par :=
  { bits := UINT_RANGE - 1, bps := UINT_RANGE - 1, sig := UINT_RANGE - 1,
    le := UINT_RANGE - 1, msb := UINT_RANGE - 1, rchan := UINT_RANGE - 1,
    pchan := UINT_RANGE - 1, rate := UINT_RANGE - 1, bufsz := UINT_RANGE - 1,
    xrun := UINT_RANGE - 1, round := UINT_RANGE - 1, appbufsz := UINT_RANGE - 1 }

/-- The calls the adapter issues to the backend, with the arguments that
matter. -/
inductive sio_call
  | sio_open
  | sio_close
  | sio_onmove
  | sio_setvol (vol : Nat)
  | sio_pollfd
  | sio_getcap
  | sio_setpar (par : sio_par)
  | sio_getpar
  | sio_start
  | sio_stop
  | sio_eof
  | sio_write (nbytes : Nat)
  | sio_read (nbytes : Nat)
  deriving DecidableEq, Repr

/-! ## The adapter state -/

/-- The `snd_pcm_sndio_t` of the plugin (the handle `hdl` is left out: it is
non-null from open to close). -/
structure snd_pcm_sndio_t where
  io : snd_pcm_ioplug_t
  par : sio_par
  /-- Bytes per frame, an `unsigned int`. -/
  bpf : Nat
  /-- Frames transferred, `appl_ptr` of the spec. -/
  ptr : Int
  /-- Frames the device processed, `real_ptr` of the spec. -/
  realptr : Int
  /-- The started flag, an `int` used as a boolean. -/
  started : Int
  deriving DecidableEq, Repr

/-- What a plugin callback leaves behind: the new adapter state, the value it
returns and the backend calls it issued, in order. -/
structure Outcome where
  st : snd_pcm_sndio_t
  ret : Int
  calls : List sio_call
  deriving DecidableEq, Repr

/-! ## Format Mapper -/

/-- The function `sndio_alsa_fmttopar`: the return value, then the contents of
`*bits`, `*sig` and `*le` after the call (the arguments are their contents
before it; a case that does not assign one leaves it as it was). -/
def sndio_alsa_fmttopar (fmt : snd_pcm_format_t) (bits sig le : Nat) :
    Int × Nat × Nat × Nat :=
  match fmt with
  | SND_PCM_FORMAT_U8 => (1, 8, 0, le)
  | SND_PCM_FORMAT_S8 => (1, 8, 1, le)
  | SND_PCM_FORMAT_S16_LE => (1, 16, 1, 1)
  | SND_PCM_FORMAT_S16_BE => (1, 16, 1, 0)
  | SND_PCM_FORMAT_U16_LE => (1, 16, 0, 1)
  | SND_PCM_FORMAT_U16_BE => (1, 16, 0, 0)
  | SND_PCM_FORMAT_S24_LE => (1, 24, 1, 1)
  | SND_PCM_FORMAT_S24_BE => (1, 24, 1, 0)
  | SND_PCM_FORMAT_U24_LE => (1, 24, 0, 1)
  | SND_PCM_FORMAT_U24_BE => (1, 24, 0, 0)
  | SND_PCM_FORMAT_S32_LE => (1, 32, 1, 1)
  | SND_PCM_FORMAT_S32_BE => (1, 32, 1, 0)
  | SND_PCM_FORMAT_U32_LE => (1, 32, 0, 1)
  | SND_PCM_FORMAT_U32_BE => (1, 32, 0, 0)
  | _ => (0, bits, sig, le)

/-! ## Parameter Committer -/

/-- What the backend answers during one `sndio_hw_params`: the return values of
`sio_setpar` and `sio_getpar` (0 is failure) and the parameters `sio_getpar`
stores in `retpar`. -/
structure hw_params_env where
  sio_setpar : Int
  sio_getpar : Int
  retpar : sio_par
  deriving DecidableEq, Repr

/-- The function `sndio_hw_params`. -/
def sndio_hw_params (s : snd_pcm_sndio_t) (be : hw_params_env) : Outcome :=
  let par0 : sio_par := { s.par with pchan := s.io.channels, rchan := s.io.channels }
  let m := sndio_alsa_fmttopar s.io.format par0.bits par0.sig par0.le
  if m.1 = 0 then
    { st := { s with par := par0 }, ret := -EINVAL, calls := [] }
  else
    let par1 : sio_par := { par0 with bits := m.2.1, sig := m.2.2.1, le := m.2.2.2 }
    let bpf : Nat :=
      ((snd_pcm_format_physical_width s.io.format * (s.io.channels : Int))
        % (UINT_RANGE : Int)).toNat / 8
    let par : sio_par :=
      { par1 with bps := SIO_BPS par1.bits, rate := s.io.rate,
                  appbufsz := s.io.buffer_size % UINT_RANGE }
    let s1 : snd_pcm_sndio_t := { s with par := par, bpf := bpf }
    if be.sio_setpar = 0 then
      { st := s1, ret := -EINVAL, calls := [sio_call.sio_setpar par] }
    else if be.sio_getpar = 0 then
      { st := s1, ret := -EINVAL, calls := [sio_call.sio_setpar par, sio_call.sio_getpar] }
    else if par.bits ≠ be.retpar.bits ∨
        par.bps ≠ be.retpar.bps ∨
        par.rate ≠ be.retpar.rate ∨
        (par.bps > 1 ∧ par.le ≠ be.retpar.le) ∨
        (par.bits < (par.bps * 8) % UINT_RANGE ∧ par.msb ≠ be.retpar.msb) then
      { st := s1, ret := -1, calls := [sio_call.sio_setpar par, sio_call.sio_getpar] }
    else
      { st := s1, ret := 0, calls := [sio_call.sio_setpar par, sio_call.sio_getpar] }

/-! ## Transfer Engine and Stream Position Tracker -/

/-- What the backend answers during one `sndio_write`: the `size_t` that
`sio_write` (output stream) or `sio_read` (input stream) returns, and the
return value of `sio_eof`. -/
structure transfer_env where
  moved : Nat
  sio_eof : Int
  deriving DecidableEq, Repr

/-- The byte length `bufsz` that `sndio_write` asks the backend to move:
`size * sndio->bpf` computed on `unsigned long` and stored in an
`unsigned int`. -/
def transfer_bufsz (s : snd_pcm_sndio_t) (size : Nat) : Nat :=
  ((size * s.bpf) % ULONG_RANGE) % UINT_RANGE

/-- The backend call of one transfer: `sio_write` on an output stream,
`sio_read` on an input stream. -/
def transfer_call (s : snd_pcm_sndio_t) (size : Nat) : sio_call :=
  if s.io.stream = SND_PCM_STREAM_PLAYBACK then sio_call.sio_write (transfer_bufsz s size)
  else sio_call.sio_read (transfer_bufsz s size)

/-- The function `sndio_write`, the transfer callback of both directions.  The
arguments `areas` and `offset` only locate the bytes and are left out.  The
result is `none` where the C code divides by `bpf = 0`. -/
def sndio_write (s : snd_pcm_sndio_t) (size : Nat) (be : transfer_env) : Option Outcome :=
  let n : Nat := be.moved % UINT_RANGE
  if n = 0 then
    if be.sio_eof = 1 then
      some { st := s, ret := - EIO, calls := [transfer_call s size, sio_call.sio_eof] }
    else
      some { st := s, ret := (n : Int), calls := [transfer_call s size, sio_call.sio_eof] }
  else if s.bpf = 0 then none
  else
    some { st := { s with ptr := s.ptr + ((n / s.bpf : Nat) : Int) },
           ret := ((n / s.bpf : Nat) : Int),
           calls := [transfer_call s size] }

/-- The function `sndio_delay`: its return value and the value it stores in
`*delayp`. -/
def sndio_delay (s : snd_pcm_sndio_t) : Int × Int :=
  (0, s.ptr - s.realptr)

/-- The function `sndio_pointer`: the sum is computed on `unsigned long` and
returned as a `snd_pcm_sframes_t`. -/
def sndio_pointer (s : snd_pcm_sndio_t) : Int :=
  toSframes ((toUframes s.ptr +
    ((if s.io.stream = SND_PCM_STREAM_CAPTURE then 1 else 0) * s.io.buffer_size) % ULONG_RANGE)
    % ULONG_RANGE)

/-- The function `cb`, the move notification the backend delivers. -/
def cb (s : snd_pcm_sndio_t) (delta : Int) : snd_pcm_sndio_t :=
  { s with realptr := s.realptr + delta }

/-! ## Lifecycle Controller -/

/-- The function `sndio_start`. -/
def sndio_start (s : snd_pcm_sndio_t) : Outcome :=
  { st := s, ret := 0, calls := [] }

/-- The function `sndio_stop`. -/
def sndio_stop (s : snd_pcm_sndio_t) : Outcome :=
  if s.started ≠ 0 then
    { st := { s with started := 0 }, ret := 0, calls := [sio_call.sio_stop] }
  else
    { st := s, ret := 0, calls := [] }

/-- The function `sndio_drain`. -/
def sndio_drain (s : snd_pcm_sndio_t) : Outcome :=
  { st := s, ret := 0, calls := [sio_call.sio_stop] }

/-- What the backend answers during one `sndio_prepare`: the return values of
`sio_start` (0 is failure) and of `sio_eof`. -/
structure prepare_env where
  sio_start : Int
  sio_eof : Int
  deriving DecidableEq, Repr

/-- The function `sndio_prepare`. -/
def sndio_prepare (s : snd_pcm_sndio_t) (be : prepare_env) : Outcome :=
  let s0 : snd_pcm_sndio_t := { s with ptr := 0, realptr := 0 }
  let o := sndio_stop s0
  if be.sio_start = 0 then
    if be.sio_eof = 1 then
      { st := o.st, ret := -EBADFD, calls := o.calls ++ [sio_call.sio_start, sio_call.sio_eof] }
    else
      { st := o.st, ret := -EAGAIN, calls := o.calls ++ [sio_call.sio_start, sio_call.sio_eof] }
  else
    { st := { o.st with started := 1 }, ret := 0, calls := o.calls ++ [sio_call.sio_start] }

/-- The function `sndio_free`: the backend calls it issues (the handle is
non-null once open succeeded); the memory of the adapter is gone afterwards. -/
def sndio_free : List sio_call :=
  [sio_call.sio_close]

/-- The function `sndio_close`: its return value and the backend calls it
issues. -/
def sndio_close (s : snd_pcm_sndio_t) : Int × List sio_call :=
  if s.started ≠ 0 then (0, (sndio_stop s).calls ++ sndio_free)
  else (0, sndio_free)

/-! ## Capability Negotiator -/

/-- Modelled from the spec: the constant `SIO_NCHAN` of `sndio.h` is not in
`src/`; it is the length of the channel arrays of the capability report
(spec 4.2, 6), 8 in `sndio.h`. -/
def SIO_NCHAN : Nat := 8

/-- Modelled from the spec: the constant `SIO_NRATE` of `sndio.h` is not in
`src/`; it is the length of the rate array of the capability report
(spec 4.2, 6), 16 in `sndio.h`. -/
def SIO_NRATE : Nat := 16

/-- Modelled from the spec: the constant `SIO_MAXVOL` of `sndio.h` is not in
`src/`; it is the "max" of the volume range "0..max" (spec 6), 127 in
`sndio.h`. -/
def SIO_MAXVOL : Int := 127

/-- One `struct sio_conf` of the capability report: bitmasks over the arrays of
the report. -/
structure sio_conf where
  enc : Nat
  rchan : Nat
  pchan : Nat
  rate : Nat
  deriving DecidableEq, Repr

/-- The part of `struct sio_cap` that the adapter reads: the arrays `rchan`,
`pchan` and `rate` (index to value) and the first configuration. -/
structure sio_cap where
  rchan : Nat → Nat
  pchan : Nat → Nat
  rate : Nat → Nat
  confs0 : sio_conf

/-- The access modes of alsa-lib, `snd_pcm_access_t`. -/
inductive snd_pcm_access_t
  | SND_PCM_ACCESS_MMAP_INTERLEAVED
  | SND_PCM_ACCESS_MMAP_NONINTERLEAVED
  | SND_PCM_ACCESS_MMAP_COMPLEX
  | SND_PCM_ACCESS_RW_INTERLEAVED
  | SND_PCM_ACCESS_RW_NONINTERLEAVED
  deriving DecidableEq, Repr

/-- The table `cap_fmts`. -/
def cap_fmts : List snd_pcm_format_t :=
  [SND_PCM_FORMAT_S32_LE, SND_PCM_FORMAT_S32_BE,
   SND_PCM_FORMAT_S24_LE, SND_PCM_FORMAT_S24_BE,
   SND_PCM_FORMAT_S16_LE, SND_PCM_FORMAT_S16_BE,
   SND_PCM_FORMAT_U8]

/-- The table `cap_access`. -/
def cap_access : List snd_pcm_access_t :=
  [snd_pcm_access_t.SND_PCM_ACCESS_RW_INTERLEAVED]

/-- The hardware parameters the host lets a plugin constrain. -/
inductive ioplug_hw
  | SND_PCM_IOPLUG_HW_ACCESS
  | SND_PCM_IOPLUG_HW_FORMAT
  | SND_PCM_IOPLUG_HW_CHANNELS
  | SND_PCM_IOPLUG_HW_RATE
  | SND_PCM_IOPLUG_HW_PERIOD_BYTES
  | SND_PCM_IOPLUG_HW_BUFFER_BYTES
  | SND_PCM_IOPLUG_HW_PERIODS
  deriving DecidableEq, Repr

/-- The memory a `snd_pcm_ioplug_set_param_list` call points the host at. -/
inductive param_mem
  | access (l : List snd_pcm_access_t)
  | formats (l : List snd_pcm_format_t)
  | uints (l : List Nat)
  deriving DecidableEq, Repr

/-- The capability declarations the adapter makes to the host.  A
`set_param_list` carries the count `num_list` it passes and the contents of the
memory its list pointer addresses, from that address on; the host reads the
first `num_list` elements. -/
inductive host_call
  | set_param_list (type : ioplug_hw) (num_list : Nat) (mem : param_mem)
  | set_param_minmax (type : ioplug_hw) (min max : Nat)
  deriving DecidableEq, Repr

/-- What the environment answers during one `sndio_hw_constraint`: the return
value of `sio_getcap` (0 is failure) and the report it stores, the error codes
of the seven host calls in the order of the source, and what the stack holds
where the uninitialised locals `cap_chans` and `cap_rates` are placed and in the
word just below `cap_chans`. -/
structure hw_constraint_env where
  sio_getcap : Int
  cap : sio_cap
  err_access : Int
  err_format : Int
  err_channels : Int
  err_rate : Int
  err_buffer_bytes : Int
  err_period_bytes : Int
  err_periods : Int
  stack_cap_chans : Nat → Nat
  stack_cap_rates : Nat → Nat
  stack_below_cap_chans : Nat

/-- The values one collection loop of `sndio_hw_constraint` appends: `arr i` for
every `i` below `n` whose bit is set in `mask`, in increasing `i`. -/
def collect_mask (n mask : Nat) (arr : Nat → Nat) : List Nat :=
  ((List.range n).filter (fun i => mask.testBit i)).map arr

/-- Contents of a local array of `n` elements after a collection loop stored
`vals` at its start: the rest keeps what the stack held. -/
def array_after (n : Nat) (vals : List Nat) (stack : Nat → Nat) : List Nat :=
  vals ++ ((List.range n).drop vals.length).map stack

/-- The channel counts collected into `cap_chans` by `sndio_hw_constraint`. -/
def collected_chans (stream : snd_pcm_stream_t) (cap : sio_cap) : List Nat :=
  if stream = SND_PCM_STREAM_PLAYBACK then collect_mask SIO_NCHAN cap.confs0.pchan cap.pchan
  else collect_mask SIO_NCHAN cap.confs0.rchan cap.rchan

/-- The rates collected into `cap_rates` by `sndio_hw_constraint`. -/
def collected_rates (cap : sio_cap) : List Nat :=
  collect_mask SIO_NRATE cap.confs0.rate cap.rate

/-- The channel declaration of `sndio_hw_constraint`: count
`ARRAY_SIZE(cap_chans)`, list pointer `cap_chans-1`. -/
def channels_call (stream : snd_pcm_stream_t) (e : hw_constraint_env) : host_call :=
  host_call.set_param_list ioplug_hw.SND_PCM_IOPLUG_HW_CHANNELS SIO_NCHAN
    (param_mem.uints (e.stack_below_cap_chans ::
      array_after SIO_NCHAN (collected_chans stream e.cap) e.stack_cap_chans))

/-- The rate declaration of `sndio_hw_constraint`: count `nrate-1` converted to
`unsigned int`, list pointer `cap_rates`. -/
def rate_call (e : hw_constraint_env) : host_call :=
  host_call.set_param_list ioplug_hw.SND_PCM_IOPLUG_HW_RATE
    ((((collected_rates e.cap).length : Int) - 1) % (UINT_RANGE : Int)).toNat
    (param_mem.uints (array_after SIO_NRATE (collected_rates e.cap) e.stack_cap_rates))

/-- The elements the host reads from a `set_param_list` of unsigned values: the
first `num_list` of the memory it was pointed at. -/
def registered_uints : host_call → List Nat
  | host_call.set_param_list _ num (param_mem.uints l) => l.take num
  | _ => []

/-- The function `sndio_hw_constraint`: its return value, the backend calls and
the host calls it issued. -/
def sndio_hw_constraint (stream : snd_pcm_stream_t) (e : hw_constraint_env) :
    Int × List sio_call × List host_call :=
  if e.sio_getcap = 0 then (-EINVAL, [sio_call.sio_getcap], []) else
  let c1 := [host_call.set_param_list ioplug_hw.SND_PCM_IOPLUG_HW_ACCESS cap_access.length
              (param_mem.access cap_access)]
  if e.err_access < 0 then (e.err_access, [sio_call.sio_getcap], c1) else
  let c2 := c1 ++ [host_call.set_param_list ioplug_hw.SND_PCM_IOPLUG_HW_FORMAT cap_fmts.length
              (param_mem.formats cap_fmts)]
  if e.err_format < 0 then (e.err_format, [sio_call.sio_getcap], c2) else
  let c3 := c2 ++ [channels_call stream e]
  if e.err_channels < 0 then (e.err_channels, [sio_call.sio_getcap], c3) else
  let c4 := c3 ++ [rate_call e]
  if e.err_rate < 0 then (e.err_rate, [sio_call.sio_getcap], c4) else
  let c5 := c4 ++ [host_call.set_param_minmax ioplug_hw.SND_PCM_IOPLUG_HW_BUFFER_BYTES 64
              (4 * 1024 * 1024)]
  if e.err_buffer_bytes < 0 then (e.err_buffer_bytes, [sio_call.sio_getcap], c5) else
  let c6 := c5 ++ [host_call.set_param_minmax ioplug_hw.SND_PCM_IOPLUG_HW_PERIOD_BYTES 64
              (2 * 1024 * 1024)]
  if e.err_period_bytes < 0 then (e.err_period_bytes, [sio_call.sio_getcap], c6) else
  let c7 := c6 ++ [host_call.set_param_minmax ioplug_hw.SND_PCM_IOPLUG_HW_PERIODS 1 2048]
  if e.err_periods < 0 then (e.err_periods, [sio_call.sio_getcap], c7) else
  (0, [sio_call.sio_getcap], c7)

/-! ## Open -/

/-- What the environment answers during one `sndio_open`: whether `calloc` and
`sio_open` return a non-null pointer, the return value of `sio_setvol`, the
error code of `snd_pcm_ioplug_create`, and the answers to
`sndio_hw_constraint`. -/
structure open_env where
  calloc_ok : Bool
  sio_open_ok : Bool
  sio_setvol : Int
  ioplug_create : Int
  constraint : hw_constraint_env

/-- The adapter `calloc` and the assignments of `sndio_open` produce: zeroed
memory (format value 0 is `SND_PCM_FORMAT_S8`), `par` as `sio_initpar` leaves
it, the stream direction as `snd_pcm_ioplug_create` stores it. -/
def open_state (stream : snd_pcm_stream_t) : snd_pcm_sndio_t :=
  { io := { stream := stream, format := SND_PCM_FORMAT_S8, channels := 0, rate := 0,
            buffer_size := 0 },
    par := sio_initpar, bpf := 0, ptr := 0, realptr := 0, started := 0 }

/-- What `sndio_open` leaves behind: its return value, the adapter that is
still allocated afterwards (`none` once `sndio_free` ran or nothing was
allocated), whether `*pcmp` was assigned, whether `snd_pcm_ioplug_delete` was
called, and the backend and host calls it issued. -/
structure open_result where
  ret : Int
  adapter : Option snd_pcm_sndio_t
  pcmp_assigned : Bool
  ioplug_deleted : Bool
  calls : List sio_call
  host_calls : List host_call
  deriving DecidableEq, Repr

/-- The backend calls of `sndio_open` between a successful `sio_open` and
`snd_pcm_ioplug_create`. -/
def open_setup_calls (volume : Int) : List sio_call :=
  [sio_call.sio_open, sio_call.sio_onmove] ++
  (if 0 ≤ volume ∧ volume ≤ SIO_MAXVOL then [sio_call.sio_setvol volume.toNat] else []) ++
  [sio_call.sio_pollfd]

/-- The function `sndio_open`. -/
def sndio_open (stream : snd_pcm_stream_t) (volume : Int) (e : open_env) : open_result :=
  if e.calloc_ok = false then
    { ret := -ENOMEM, adapter := none, pcmp_assigned := false, ioplug_deleted := false,
      calls := [], host_calls := [] }
  else if e.sio_open_ok = false then
    { ret := -ENOENT, adapter := none, pcmp_assigned := false, ioplug_deleted := false,
      calls := [sio_call.sio_open], host_calls := [] }
  else if e.ioplug_create < 0 then
    { ret := e.ioplug_create, adapter := none, pcmp_assigned := false, ioplug_deleted := false,
      calls := open_setup_calls volume ++ sndio_free, host_calls := [] }
  else
    let c := sndio_hw_constraint stream e.constraint
    if c.1 < 0 then
      { ret := 0, adapter := none, pcmp_assigned := true, ioplug_deleted := true,
        calls := open_setup_calls volume ++ c.2.1 ++ sndio_free, host_calls := c.2.2 }
    else
      { ret := 0, adapter := some (open_state stream), pcmp_assigned := true,
        ioplug_deleted := false,
        calls := open_setup_calls volume ++ c.2.1, host_calls := c.2.2 }

/-! ## Runs of the adapter -/

/-- One step of the host or of the backend on an open adapter.  A `hw_params`
step carries the format, channel count, rate and buffer size the host stores in
`io` before it calls `sndio_hw_params`. -/
inductive Event
  | prepare (be : prepare_env)
  | transfer (size : Nat) (be : transfer_env)
  | cb (delta : Int)
  | stop
  | drain
  | hw_params (format : snd_pcm_format_t) (channels rate buffer_size : Nat) (be : hw_params_env)
  deriving DecidableEq, Repr

/-- The adapter state after one event and the value the call returned (0 for
`cb`, which returns nothing); `none` where the C code has no defined
behaviour. -/
def step (s : snd_pcm_sndio_t) : Event → Option (snd_pcm_sndio_t × Int)
  | Event.prepare be => some ((sndio_prepare s be).st, (sndio_prepare s be).ret)
  | Event.transfer size be => (sndio_write s size be).map (fun o => (o.st, o.ret))
  | Event.cb delta => some (cb s delta, 0)
  | Event.stop => some ((sndio_stop s).st, (sndio_stop s).ret)
  | Event.drain => some ((sndio_drain s).st, (sndio_drain s).ret)
  | Event.hw_params format channels rate buffer_size be =>
      let s1 : snd_pcm_sndio_t :=
        { s with io := { s.io with format := format, channels := channels, rate := rate,
                                   buffer_size := buffer_size } }
      some ((sndio_hw_params s1 be).st, (sndio_hw_params s1 be).ret)

/-- The adapter state after a sequence of events, with the trace of the events
and the values they returned. -/
def run (s : snd_pcm_sndio_t) : List Event → Option (snd_pcm_sndio_t × List (Event × Int))
  | [] => some (s, [])
  | e :: es =>
    match step s e with
    | none => none
    | some (s1, r) =>
      match run s1 es with
      | none => none
      | some (s2, tr) => some (s2, (e, r) :: tr)

/-- The sum of the frame counts the successful transfers of a trace returned
(a failed transfer returns the negative `-EIO`). -/
def frames_returned : List (Event × Int) → Int
  | [] => 0
  | (Event.transfer _ _, r) :: tr => (if 0 ≤ r then r else 0) + frames_returned tr
  | _ :: tr => frames_returned tr

/-- The sum of the deltas of the move notifications of a trace. -/
def moves_notified : List (Event × Int) → Int
  | [] => 0
  | (Event.cb delta, _) :: tr => delta + moves_notified tr
  | _ :: tr => moves_notified tr

/-- The event is a transfer or a move notification. -/
def is_transfer_or_cb : Event → Bool
  | Event.transfer _ _ => true
  | Event.cb _ => true
  | _ => false

/-- A move notification delivered in state `s` reports a delta that is at most
the delay of `s`; every other event passes. -/
def move_within_delay (s : snd_pcm_sndio_t) : Event → Bool
  | Event.cb delta => decide (delta ≤ (sndio_delay s).2)
  | _ => true

/-- Every move notification of the run from `s` reports a delta that is at most
the delay at the moment it is delivered: the backend never reports more frames
processed than were submitted. -/
def moves_within_delay : snd_pcm_sndio_t → List Event → Bool
  | _, [] => true
  | s, e :: es =>
    move_within_delay s e &&
    (match step s e with
      | some (s1, _) => moves_within_delay s1 es
      | none => true)

/-! ## Format Mapper: the table of the specification -/

/-- The formats spec 4.1 says the Format Mapper covers, "8/16/24/32-bit,
signed/unsigned, little/big-endian combinations", each with its nominal bit
width, its signedness (1 for `S`, 0 for `U`) and, above 8 bits, its
little-endian flag (1 for `_LE`, 0 for `_BE`). -/
def spec_format_table : List (snd_pcm_format_t × Nat × Nat × Option Nat) :=
  [(SND_PCM_FORMAT_U8, 8, 0, none), (SND_PCM_FORMAT_S8, 8, 1, none),
   (SND_PCM_FORMAT_S16_LE, 16, 1, some 1), (SND_PCM_FORMAT_S16_BE, 16, 1, some 0),
   (SND_PCM_FORMAT_U16_LE, 16, 0, some 1), (SND_PCM_FORMAT_U16_BE, 16, 0, some 0),
   (SND_PCM_FORMAT_S24_LE, 24, 1, some 1), (SND_PCM_FORMAT_S24_BE, 24, 1, some 0),
   (SND_PCM_FORMAT_U24_LE, 24, 0, some 1), (SND_PCM_FORMAT_U24_BE, 24, 0, some 0),
   (SND_PCM_FORMAT_S32_LE, 32, 1, some 1), (SND_PCM_FORMAT_S32_BE, 32, 1, some 0),
   (SND_PCM_FORMAT_U32_LE, 32, 0, some 1), (SND_PCM_FORMAT_U32_BE, 32, 0, some 0)]

/-- The entry of `spec_format_table` for a format, if it has one. -/
def spec_format_entry (fmt : snd_pcm_format_t) : Option (Nat × Nat × Option Nat) :=
  (spec_format_table.find? (fun e => e.1 = fmt)).map (fun e => e.2)

/-- The Format Mapper accepts the format: `sndio_alsa_fmttopar` returns
non-zero (what `*bits`, `*sig` and `*le` held before does not matter). -/
def fmt_accepted (fmt : snd_pcm_format_t) : Prop :=
  (sndio_alsa_fmttopar fmt 0 0 0).1 ≠ 0

instance (fmt : snd_pcm_format_t) : Decidable (fmt_accepted fmt) := by
  unfold fmt_accepted; infer_instance

/-! ## Concrete environments and scenarios -/

/-- A capability report with nothing in it. -/
def empty_cap : sio_cap :=
  { rchan := fun _ => 0, pchan := fun _ => 0, rate := fun _ => 0,
    confs0 := { enc := 0, rchan := 0, pchan := 0, rate := 0 } }

/-- An environment of `sndio_open` in which everything succeeds except
`sio_getcap`. -/
def getcap_fails_env : open_env :=
  { calloc_ok := true, sio_open_ok := true, sio_setvol := 1, ioplug_create := 0,
    constraint :=
      { sio_getcap := 0, cap := empty_cap,
        err_access := 0, err_format := 0, err_channels := 0, err_rate := 0,
        err_buffer_bytes := 0, err_period_bytes := 0, err_periods := 0,
        stack_cap_chans := fun _ => 0, stack_cap_rates := fun _ => 0,
        stack_below_cap_chans := 0 } }

/-- Parameters a backend reads back when it took the request of the end-to-end
scenario as it was. -/
def scenario_retpar : sio_par :=
  { sio_initpar with bits := 16, bps := 2, sig := 1, le := 1, msb := 1, rchan := 2, pchan := 2,
                     rate := 48000, appbufsz := 4096 }

/-- The commit of the end-to-end scenario of spec 8: 16-bit signed
little-endian, 2 channels, 48000 Hz, a buffer of 4096 frames, accepted by the
backend. -/
def scenario_hw_params : Event :=
  Event.hw_params SND_PCM_FORMAT_S16_LE 2 48000 4096
    { sio_setpar := 1, sio_getpar := 1, retpar := scenario_retpar }

/-- The adapter of the end-to-end scenario after open (output stream) and the
commit. -/
def scenario_configured : snd_pcm_sndio_t :=
  (sndio_hw_params
    { open_state SND_PCM_STREAM_PLAYBACK with
      io := { stream := SND_PCM_STREAM_PLAYBACK, format := SND_PCM_FORMAT_S16_LE,
              channels := 2, rate := 48000, buffer_size := 4096 } }
    { sio_setpar := 1, sio_getpar := 1, retpar := scenario_retpar }).st

/-- A transfer of 1024 frames of 4 bytes that the backend takes in full. -/
def scenario_transfer : Event :=
  Event.transfer 1024 { moved := 4096, sio_eof := 0 }

/-- The steps of the end-to-end scenario after prepare: three full transfers of
1024 frames, then a move notification of 2000 frames. -/
def scenario_steps : List Event :=
  [scenario_transfer, scenario_transfer, scenario_transfer, Event.cb 2000]

/-- A prepare on which the backend starts. -/
def scenario_prepare : prepare_env :=
  { sio_start := 1, sio_eof := 0 }

/-- The whole end-to-end scenario from open on. -/
def scenario_events : List Event :=
  [scenario_hw_params, Event.prepare scenario_prepare] ++ scenario_steps

/-- An input stream between prepare and the first read: the device has
captured 100 frames that the host has not read yet. -/
def capture_events : List Event :=
  [Event.prepare scenario_prepare, Event.cb 100]

/-- The sample width that contains `bits`, in the words of spec 4.3 ("rounded
to containing byte width"): 8, 16 or 32 bits. -/
def spec_containing_width (bits : Nat) : Nat :=
  if bits ≤ 8 then 8 else if bits ≤ 16 then 16 else 32

/-- The event is not a prepare, and if it is a move notification its delta is
not negative. -/
def keeps_counters : Event → Bool
  | Event.prepare _ => false
  | Event.cb delta => decide (0 ≤ delta)
  | _ => true

/-- A capability report of a device that plays and records mono or stereo at
44100 or 48000 Hz, and whose first configuration selects stereo only and both
rates. -/
def stereo_cap : sio_cap :=
  { rchan := fun i => if i = 0 then 1 else if i = 1 then 2 else 0,
    pchan := fun i => if i = 0 then 1 else if i = 1 then 2 else 0,
    rate := fun i => if i = 0 then 44100 else if i = 1 then 48000 else 0,
    confs0 := { enc := 1, rchan := 2, pchan := 2, rate := 3 } }

/-- An environment of `sndio_hw_constraint` in which `sio_getcap` reports
`stereo_cap`, the host accepts every declaration and the stack holds zeroes. -/
def stereo_env : hw_constraint_env :=
  { sio_getcap := 1, cap := stereo_cap,
    err_access := 0, err_format := 0, err_channels := 0, err_rate := 0,
    err_buffer_bytes := 0, err_period_bytes := 0, err_periods := 0,
    stack_cap_chans := fun _ => 0, stack_cap_rates := fun _ => 0,
    stack_below_cap_chans := 0 }

/-- A backend that takes the request of the end-to-end scenario and reads it
back. -/
def scenario_hw_params_env : hw_params_env :=
  { sio_setpar := 1, sio_getpar := 1, retpar := scenario_retpar }

/-- The adapter of the end-to-end scenario when the host asks it to commit
32-bit signed little-endian on 2 channels instead. -/
def scenario_reconfigure : snd_pcm_sndio_t :=
  { scenario_configured with
    io := { stream := SND_PCM_STREAM_PLAYBACK, format := SND_PCM_FORMAT_S32_LE,
            channels := 2, rate := 96000, buffer_size := 4096 } }

/-- A backend that refuses `sio_setpar`. -/
def setpar_fails : hw_params_env :=
  { sio_setpar := 0, sio_getpar := 1, retpar := sio_initpar }

/-! ## Theorems -/

/-- The return value of `sndio_alsa_fmttopar` does not depend on what the
output locations held. -/
theorem fmttopar_ret_indep (fmt : snd_pcm_format_t) (b g l : Nat) :
    (sndio_alsa_fmttopar fmt b g l).1 = (sndio_alsa_fmttopar fmt 0 0 0).1 := by
  cases fmt <;> rfl

/-- The product `par->bps * 8` of `sndio_hw_params` never wraps. -/
theorem SIO_BPS_mul_eight (bits : Nat) :
    (SIO_BPS bits * 8) % UINT_RANGE = 8 * SIO_BPS bits := by
  unfold SIO_BPS UINT_RANGE
  split_ifs <;> rfl

/-- On an accepted format `sndio_hw_params` goes past the Format Mapper. -/
theorem hw_params_fmt_ne_zero (s : snd_pcm_sndio_t) (h : fmt_accepted s.io.format) :
    (sndio_alsa_fmttopar s.io.format s.par.bits s.par.sig s.par.le).1 ≠ 0 := by
  rw [fmttopar_ret_indep]
  exact h

/-- C1: for every format the Format Mapper accepts and every backend response,
`sndio_hw_params` returns 0 if and only if `sio_setpar` and `sio_getpar` both
succeed and the parameters read back have the requested bits, bps and rate, the
requested endianness when the requested bps is above 1, and the requested msb
when the requested bits are below 8 * bps; in every other case it returns a
negative value.  The requested parameters are the ones stored in the adapter
and passed to `sio_setpar`: the Format Mapper's bits, `SIO_BPS` of them and the
host's rate. -/
theorem sndio_hw_params_success_iff (s : snd_pcm_sndio_t) (be : hw_params_env)
    (hfmt : fmt_accepted s.io.format) :
    ((sndio_hw_params s be).ret = 0 ↔
      (be.sio_setpar ≠ 0 ∧ be.sio_getpar ≠ 0 ∧
       be.retpar.bits = (sndio_hw_params s be).st.par.bits ∧
       be.retpar.bps = (sndio_hw_params s be).st.par.bps ∧
       be.retpar.rate = (sndio_hw_params s be).st.par.rate ∧
       ((sndio_hw_params s be).st.par.bps > 1 →
         be.retpar.le = (sndio_hw_params s be).st.par.le) ∧
       ((sndio_hw_params s be).st.par.bits < 8 * (sndio_hw_params s be).st.par.bps →
         be.retpar.msb = (sndio_hw_params s be).st.par.msb))) ∧
    ((sndio_hw_params s be).ret ≠ 0 → (sndio_hw_params s be).ret < 0) ∧
    ((sndio_hw_params s be).st.par.bits =
        (sndio_alsa_fmttopar s.io.format s.par.bits s.par.sig s.par.le).2.1 ∧
     (sndio_hw_params s be).st.par.le =
        (sndio_alsa_fmttopar s.io.format s.par.bits s.par.sig s.par.le).2.2.2 ∧
     (sndio_hw_params s be).st.par.bps = SIO_BPS (sndio_hw_params s be).st.par.bits ∧
     (sndio_hw_params s be).st.par.rate = s.io.rate ∧
     (sndio_hw_params s be).st.par.msb = s.par.msb) ∧
    (∀ p, sio_call.sio_setpar p ∈ (sndio_hw_params s be).calls →
      p = (sndio_hw_params s be).st.par) := by
  have h0 := hw_params_fmt_ne_zero s hfmt
  unfold sndio_hw_params
  simp only [h0, if_false]
  by_cases h1 : be.sio_setpar = 0
  · simp [h1, EINVAL]
  · by_cases h2 : be.sio_getpar = 0
    · simp [h1, h2, EINVAL]
    · simp only [h1, h2, if_false, SIO_BPS_mul_eight]
      split_ifs with h3
      · refine ⟨?_, ?_, ?_, ?_⟩
        · constructor
          · intro h; simp at h
          · rintro ⟨_, _, e1, e2, e3, e4, e5⟩
            rcases h3 with h | h | h | h | h
            · exact absurd e1.symm h
            · exact absurd e2.symm h
            · exact absurd e3.symm h
            · exact absurd (e4 h.1).symm h.2
            · exact absurd (e5 h.1).symm h.2
        · intro _; simp
        · simp
        · simp
      · simp only [not_or, not_and, not_not, ne_eq] at h3
        obtain ⟨e1, e2, e3, e4, e5⟩ := h3
        refine ⟨?_, ?_, ?_, ?_⟩
        · constructor
          · intro _
            exact ⟨h1, h2, e1.symm, e2.symm, e3.symm, fun h => (e4 h).symm,
              fun h => (e5 h).symm⟩
          · intro _; rfl
        · intro h; exact absurd rfl h
        · simp
        · simp

/-- Witness of C1: 16-bit signed little-endian, 2 channels, 48000 Hz, with a
backend that accepts and reads back the request, commits with return value 0. -/
theorem sndio_hw_params_success_iff_witness :
    fmt_accepted SND_PCM_FORMAT_S16_LE ∧
    (sndio_hw_params
      { open_state SND_PCM_STREAM_PLAYBACK with
        io := { stream := SND_PCM_STREAM_PLAYBACK, format := SND_PCM_FORMAT_S16_LE,
                channels := 2, rate := 48000, buffer_size := 4096 } }
      { sio_setpar := 1, sio_getpar := 1,
        retpar := { sio_initpar with bits := 16, bps := 2, sig := 1, le := 1, msb := 1,
                                     rchan := 2, pchan := 2, rate := 48000,
                                     appbufsz := 4096 } }).ret = 0 :=
  ⟨by decide,
   ((sndio_hw_params_success_iff _ _ (by decide)).1).2
     ⟨by decide, by decide, by decide, by decide, by decide, by decide, by decide⟩⟩

/-- C6: for every format without an entry in the Format Mapper table,
`sndio_hw_params` returns `-EINVAL` and issues no backend call, neither
`sio_setpar` nor `sio_getpar`. -/
theorem sndio_hw_params_unsupported (s : snd_pcm_sndio_t) (be : hw_params_env)
    (hfmt : ¬ fmt_accepted s.io.format) :
    (sndio_hw_params s be).ret = -EINVAL ∧ (sndio_hw_params s be).calls = [] := by
  have h0 : (sndio_alsa_fmttopar s.io.format s.par.bits s.par.sig s.par.le).1 = 0 := by
    rw [fmttopar_ret_indep]
    unfold fmt_accepted at hfmt
    exact not_not.mp hfmt
  unfold sndio_hw_params
  simp [h0]

/-- Witness of C6: the packed 3-byte 24-bit format `S24_3LE` has no entry; the
commit fails with `-EINVAL` and the backend is not called. -/
theorem sndio_hw_params_unsupported_witness :
    ¬ fmt_accepted SND_PCM_FORMAT_S24_3LE ∧
    (sndio_hw_params
      { open_state SND_PCM_STREAM_PLAYBACK with
        io := { stream := SND_PCM_STREAM_PLAYBACK, format := SND_PCM_FORMAT_S24_3LE,
                channels := 2, rate := 48000, buffer_size := 4096 } }
      { sio_setpar := 1, sio_getpar := 1, retpar := sio_initpar }).ret = -22 ∧
    (sndio_hw_params
      { open_state SND_PCM_STREAM_PLAYBACK with
        io := { stream := SND_PCM_STREAM_PLAYBACK, format := SND_PCM_FORMAT_S24_3LE,
                channels := 2, rate := 48000, buffer_size := 4096 } }
      { sio_setpar := 1, sio_getpar := 1, retpar := sio_initpar }).calls = [] :=
  ⟨by decide, sndio_hw_params_unsupported _ _ (by decide)⟩

/-- C7: `sndio_alsa_fmttopar` is a table lookup.  It returns 1 exactly for the
formats U8, S8 and S/U 16/24/32 LE/BE and 0 for every other format; on success
the bits it stores are the nominal width of the format, the signedness is 1 for
the S formats and 0 for the U formats, and above 8 bits the little-endian flag
is 1 for LE and 0 for BE, as listed in `spec_format_table`. -/
theorem sndio_alsa_fmttopar_table (fmt : snd_pcm_format_t) (b g l : Nat) :
    ((sndio_alsa_fmttopar fmt b g l).1 = 1 ↔
      fmt ∈ [SND_PCM_FORMAT_U8, SND_PCM_FORMAT_S8,
             SND_PCM_FORMAT_S16_LE, SND_PCM_FORMAT_S16_BE,
             SND_PCM_FORMAT_U16_LE, SND_PCM_FORMAT_U16_BE,
             SND_PCM_FORMAT_S24_LE, SND_PCM_FORMAT_S24_BE,
             SND_PCM_FORMAT_U24_LE, SND_PCM_FORMAT_U24_BE,
             SND_PCM_FORMAT_S32_LE, SND_PCM_FORMAT_S32_BE,
             SND_PCM_FORMAT_U32_LE, SND_PCM_FORMAT_U32_BE]) ∧
    ((sndio_alsa_fmttopar fmt b g l).1 = 1 ∨ (sndio_alsa_fmttopar fmt b g l).1 = 0) ∧
    ((sndio_alsa_fmttopar fmt b g l).1 = 1 ↔ (spec_format_entry fmt).isSome) ∧
    (∀ bits sig le, spec_format_entry fmt = some (bits, sig, le) →
      (sndio_alsa_fmttopar fmt b g l).2.1 = bits ∧
      (sndio_alsa_fmttopar fmt b g l).2.2.1 = sig ∧
      (∀ v, le = some v → (sndio_alsa_fmttopar fmt b g l).2.2.2 = v)) := by
  cases fmt <;>
    simp [sndio_alsa_fmttopar, spec_format_entry, spec_format_table, List.find?]

/-- When `sio_getcap` fails, `sndio_hw_constraint` returns `-EINVAL` after that
one backend call and declares nothing to the host. -/
theorem sndio_hw_constraint_getcap_fails (stream : snd_pcm_stream_t) (e : hw_constraint_env)
    (hg : e.sio_getcap = 0) :
    sndio_hw_constraint stream e = (-EINVAL, [sio_call.sio_getcap], []) := by
  unfold sndio_hw_constraint
  simp [hg]

/-- C2, what the code does: when `calloc`, `sio_open` and
`snd_pcm_ioplug_create` succeed and `sio_getcap` fails, `sndio_hw_constraint`
returns the negative `-EINVAL`, `sndio_open` deletes the ioplug and frees the
adapter (closing the handle), and then still assigns `*pcmp` and returns 0
instead of the error: the block that handles `err < 0` has no `return err`. -/
theorem sndio_open_returns_zero_after_failed_constraint (stream : snd_pcm_stream_t)
    (volume : Int) (e : open_env)
    (hc : e.calloc_ok = true) (ho : e.sio_open_ok = true) (hi : 0 ≤ e.ioplug_create)
    (hg : e.constraint.sio_getcap = 0) :
    (sndio_hw_constraint stream e.constraint).1 = -EINVAL ∧
    (sndio_open stream volume e).ret = 0 ∧
    (sndio_open stream volume e).adapter = none ∧
    (sndio_open stream volume e).ioplug_deleted = true ∧
    (sndio_open stream volume e).pcmp_assigned = true ∧
    sio_call.sio_close ∈ (sndio_open stream volume e).calls := by
  have hcon := sndio_hw_constraint_getcap_fails stream e.constraint hg
  have hneg : (sndio_hw_constraint stream e.constraint).1 < 0 := by
    rw [hcon]; decide
  refine ⟨by rw [hcon], ?_⟩
  unfold sndio_open
  simp [hc, ho, not_lt.mpr hi, hneg, sndio_free]

/-- Witness of C2: an output stream opened without a volume against a backend
whose `sio_getcap` fails: `sndio_open` returns 0 although the constraint step
returned -22 and the adapter was freed. -/
theorem sndio_open_returns_zero_after_failed_constraint_witness :
    (sndio_hw_constraint SND_PCM_STREAM_PLAYBACK getcap_fails_env.constraint).1 = -22 ∧
    (sndio_open SND_PCM_STREAM_PLAYBACK (-1) getcap_fails_env).ret = 0 ∧
    (sndio_open SND_PCM_STREAM_PLAYBACK (-1) getcap_fails_env).adapter = none ∧
    (sndio_open SND_PCM_STREAM_PLAYBACK (-1) getcap_fails_env).ioplug_deleted = true ∧
    (sndio_open SND_PCM_STREAM_PLAYBACK (-1) getcap_fails_env).pcmp_assigned = true ∧
    sio_call.sio_close ∈ (sndio_open SND_PCM_STREAM_PLAYBACK (-1) getcap_fails_env).calls :=
  sndio_open_returns_zero_after_failed_constraint SND_PCM_STREAM_PLAYBACK (-1)
    getcap_fails_env rfl rfl (by decide) rfl

/-! ### The delay along a run -/

/-- After `sndio_prepare` both counters are 0, whatever it returns. -/
theorem sndio_prepare_counters (s : snd_pcm_sndio_t) (be : prepare_env) :
    (sndio_prepare s be).st.ptr = 0 ∧ (sndio_prepare s be).st.realptr = 0 := by
  unfold sndio_prepare sndio_stop
  by_cases h : s.started = 0 <;> simp only [h] <;> split_ifs <;> simp

/-- A transfer never moves `realptr` or `bpf` and never lowers `ptr`: it adds
the value it returns when that is not negative, and nothing otherwise. -/
theorem sndio_write_counters (s : snd_pcm_sndio_t) (size : Nat) (be : transfer_env)
    (o : Outcome) (h : sndio_write s size be = some o) :
    o.st.realptr = s.realptr ∧ o.st.bpf = s.bpf ∧
    o.st.ptr = s.ptr + (if 0 ≤ o.ret then o.ret else 0) := by
  unfold sndio_write at h
  simp only at h
  split_ifs at h with h1 h2 h3
  · cases h; simp [ EIO]
  · cases h; simp [h1]
  · cases h
    simp only [true_and]
    rw [if_pos (Int.natCast_nonneg _)]

/-- `sndio_hw_params` leaves the counters alone. -/
theorem sndio_hw_params_counters (s : snd_pcm_sndio_t) (be : hw_params_env) :
    (sndio_hw_params s be).st.ptr = s.ptr ∧ (sndio_hw_params s be).st.realptr = s.realptr := by
  unfold sndio_hw_params
  simp only
  split_ifs <;> simp

/-- `sndio_stop` leaves the counters alone. -/
theorem sndio_stop_counters (s : snd_pcm_sndio_t) :
    (sndio_stop s).st.ptr = s.ptr ∧ (sndio_stop s).st.realptr = s.realptr := by
  unfold sndio_stop
  split_ifs <;> simp

/-- One step keeps the delay non-negative when a move notification reports at
most the current delay. -/
theorem step_delay_nonneg (s s1 : snd_pcm_sndio_t) (e : Event) (r : Int)
    (hs : step s e = some (s1, r))
    (hg : move_within_delay s e = true)
    (h0 : 0 ≤ (sndio_delay s).2) : 0 ≤ (sndio_delay s1).2 := by
  simp only [sndio_delay] at *
  cases e with
  | prepare be =>
    simp only [step, Option.some.injEq, Prod.mk.injEq] at hs
    obtain ⟨rfl, _⟩ := hs
    have := sndio_prepare_counters s be
    omega
  | transfer size be =>
    simp only [step, Option.map_eq_some'] at hs
    obtain ⟨o, ho, hoe⟩ := hs
    simp only [Prod.mk.injEq] at hoe
    obtain ⟨rfl, _⟩ := hoe
    have := sndio_write_counters s size be o ho
    split_ifs at this <;> omega
  | cb delta =>
    simp only [step, Option.some.injEq, Prod.mk.injEq] at hs
    obtain ⟨rfl, _⟩ := hs
    simp only [cb]
    simp only [move_within_delay, sndio_delay, decide_eq_true_eq] at hg
    omega
  | stop =>
    simp only [step, Option.some.injEq, Prod.mk.injEq] at hs
    obtain ⟨rfl, _⟩ := hs
    have := sndio_stop_counters s
    omega
  | drain =>
    simp only [step, Option.some.injEq, Prod.mk.injEq] at hs
    obtain ⟨rfl, _⟩ := hs
    simp only [sndio_drain]
    omega
  | hw_params format channels rate buffer_size be =>
    simp only [step, Option.some.injEq, Prod.mk.injEq] at hs
    obtain ⟨rfl, _⟩ := hs
    have := sndio_hw_params_counters
      { s with io := { s.io with format := format, channels := channels, rate := rate,
                                 buffer_size := buffer_size } } be
    simp only at this
    omega

/-- Unfolding of `run` at a non-empty sequence that has a result. -/
theorem run_cons_some (s s2 : snd_pcm_sndio_t) (e : Event) (es : List Event)
    (tr : List (Event × Int)) (h : run s (e :: es) = some (s2, tr)) :
    ∃ s1 r tr1, step s e = some (s1, r) ∧ run s1 es = some (s2, tr1) ∧ tr = (e, r) :: tr1 := by
  simp only [run] at h
  cases hstep : step s e with
  | none => simp [hstep] at h
  | some p =>
    obtain ⟨s1, r⟩ := p
    simp only [hstep] at h
    cases hrun : run s1 es with
    | none => simp [hrun] at h
    | some q =>
      obtain ⟨s2q, tr1⟩ := q
      simp only [hrun, Option.some.injEq, Prod.mk.injEq] at h
      obtain ⟨h1, h2⟩ := h
      subst h1
      exact ⟨s1, r, tr1, rfl, hrun, h2.symm⟩

/-- The delay stays non-negative along a run from a state with a non-negative
delay when every move notification reports at most the current delay. -/
theorem run_delay_nonneg (evs : List Event) :
    ∀ (s s2 : snd_pcm_sndio_t) (tr : List (Event × Int)),
      0 ≤ (sndio_delay s).2 → moves_within_delay s evs = true → run s evs = some (s2, tr) →
      0 ≤ (sndio_delay s2).2 := by
  induction evs with
  | nil =>
    intro s s2 tr h0 _ hr
    simp only [run, Option.some.injEq, Prod.mk.injEq] at hr
    obtain ⟨rfl, _⟩ := hr
    exact h0
  | cons e es ih =>
    intro s s2 tr h0 hm hr
    obtain ⟨s1, r, tr1, hstep, hrun, _⟩ := run_cons_some s s2 e es tr hr
    simp only [moves_within_delay, hstep, Bool.and_eq_true] at hm
    exact ih s1 s2 tr1 (step_delay_nonneg s s1 e r hstep hm.1 h0) hm.2 hrun

/-- C3, counterexample: on an input stream, after open and a successful prepare,
a move notification of 100 frames (the device captured them, the host has not
read them yet) leaves `ptr = 0`, `realptr = 100` and `sndio_delay` reports
-100, which is negative. -/
theorem sndio_delay_negative_on_capture :
    (run (open_state SND_PCM_STREAM_CAPTURE) capture_events).map
      (fun r => (r.1.ptr, r.1.realptr, (sndio_delay r.1).2, decide (0 ≤ (sndio_delay r.1).2)))
      = some (0, 100, -100, false) := by
  decide

/-- C3, amended: in every state reachable from open by any sequence of prepare,
transfer, move-notification, stop, drain and hw_params steps in which every
move notification reports a delta that is at most the delay at the moment it is
delivered, the value reported by `sndio_delay`, `ptr - realptr`, is at least
0. -/
theorem sndio_delay_nonneg (stream : snd_pcm_stream_t) (evs : List Event)
    (s : snd_pcm_sndio_t) (tr : List (Event × Int))
    (hm : moves_within_delay (open_state stream) evs = true)
    (hr : run (open_state stream) evs = some (s, tr)) :
    (sndio_delay s).1 = 0 ∧ (sndio_delay s).2 = s.ptr - s.realptr ∧ 0 ≤ (sndio_delay s).2 :=
  ⟨rfl, rfl, run_delay_nonneg evs (open_state stream) s tr (le_of_eq rfl) hm hr⟩

/-- Witness of C3 amended: the end-to-end scenario is such a run; it ends with a
delay of 1072. -/
theorem sndio_delay_nonneg_witness :
    moves_within_delay (open_state SND_PCM_STREAM_PLAYBACK) scenario_events = true ∧
    (run (open_state SND_PCM_STREAM_PLAYBACK) scenario_events).map
      (fun r => (sndio_delay r.1).2) = some 1072 ∧
    (∀ s tr, run (open_state SND_PCM_STREAM_PLAYBACK) scenario_events = some (s, tr) →
      0 ≤ (sndio_delay s).2) :=
  ⟨by decide, by decide,
   fun s tr h => (sndio_delay_nonneg SND_PCM_STREAM_PLAYBACK scenario_events s tr
     (by decide) h).2.2⟩

/-- The byte length asked of the backend fits an `unsigned int`. -/
theorem transfer_bufsz_lt (s : snd_pcm_sndio_t) (size : Nat) :
    transfer_bufsz s size < UINT_RANGE :=
  Nat.mod_lt _ (by decide)

/-- C4: for every transfer request of `N` frames with `bpf ≥ 1` in which the
backend accepts exactly `K` bytes with `0 < K < N * bpf` (of the `bufsz` bytes it
was offered, so `K ≤ bufsz`), `sndio_write` returns `K / bpf`, `ptr` afterwards
is `ptr` before plus that frame count, and nothing else of the adapter, in
particular `realptr` and the started flag, changes; the only backend call is
the write or read itself. -/
theorem sndio_write_short_transfer (s : snd_pcm_sndio_t) (N K : Nat) (eof : Int)
    (hbpf : 1 ≤ s.bpf) (hK0 : 0 < K) (_hKN : K < N * s.bpf)
    (hK : K ≤ transfer_bufsz s N) :
    sndio_write s N { moved := K, sio_eof := eof } =
      some { st := { s with ptr := s.ptr + ((K / s.bpf : Nat) : Int) },
             ret := ((K / s.bpf : Nat) : Int),
             calls := [transfer_call s N] } := by
  have hlt : K < UINT_RANGE := lt_of_le_of_lt hK (transfer_bufsz_lt s N)
  have hn : K % UINT_RANGE = K := Nat.mod_eq_of_lt hlt
  have hK1 : K ≠ 0 := Nat.pos_iff_ne_zero.mp hK0
  have hb : s.bpf ≠ 0 := Nat.pos_iff_ne_zero.mp hbpf
  unfold sndio_write
  simp only [hn, hK1, hb, if_false]

/-- Witness of C4: 1024 frames of 4 bytes are requested and the backend accepts
1000 bytes: the transfer returns 250 frames and `ptr` advances by 250. -/
theorem sndio_write_short_transfer_witness :
    (1 ≤ scenario_configured.bpf ∧ 0 < 1000 ∧ 1000 < 1024 * scenario_configured.bpf ∧
      1000 ≤ transfer_bufsz scenario_configured 1024) ∧
    sndio_write scenario_configured 1024 { moved := 1000, sio_eof := 0 } =
      some { st := { scenario_configured with ptr := scenario_configured.ptr + 250 },
             ret := 250,
             calls := [sio_call.sio_write 4096] } :=
  ⟨by decide,
   sndio_write_short_transfer scenario_configured 1024 1000 0 (by decide) (by decide) (by decide)
     (by decide)⟩

/-- A transfer or a move notification that has a result keeps `bpf`, and changes
the delay by the frames a successful transfer returned, less the delta
notified. -/
theorem step_transfer_or_cb (s s1 : snd_pcm_sndio_t) (e : Event) (r : Int)
    (he : is_transfer_or_cb e = true) (hs : step s e = some (s1, r)) :
    s1.bpf = s.bpf ∧
    (sndio_delay s1).2 =
      (sndio_delay s).2 + frames_returned [(e, r)] - moves_notified [(e, r)] := by
  cases e with
  | transfer size be =>
    simp only [step, Option.map_eq_some'] at hs
    obtain ⟨o, ho, hoe⟩ := hs
    simp only [Prod.mk.injEq] at hoe
    obtain ⟨rfl, rfl⟩ := hoe
    have h := sndio_write_counters s size be o ho
    simp only [sndio_delay, frames_returned, moves_notified]
    refine ⟨h.2.1, ?_⟩
    rw [h.2.2, h.1]
    omega
  | cb delta =>
    simp only [step, Option.some.injEq, Prod.mk.injEq] at hs
    obtain ⟨rfl, _⟩ := hs
    simp only [cb, sndio_delay, frames_returned, moves_notified]
    constructor
    · trivial
    · omega
  | prepare be => simp [is_transfer_or_cb] at he
  | stop => simp [is_transfer_or_cb] at he
  | drain => simp [is_transfer_or_cb] at he
  | hw_params f c r b be => simp [is_transfer_or_cb] at he

/-- The sums of a trace, one event at a time. -/
theorem trace_sums_cons (e : Event) (r : Int) (tr : List (Event × Int)) :
    frames_returned ((e, r) :: tr) = frames_returned [(e, r)] + frames_returned tr ∧
    moves_notified ((e, r) :: tr) = moves_notified [(e, r)] + moves_notified tr := by
  cases e <;> simp [frames_returned, moves_notified]

/-- Along a run of transfers and move notifications the delay is the delay at
the start plus the frames the successful transfers returned, less the deltas
notified. -/
theorem run_transfers_delay (evs : List Event) :
    ∀ (s s2 : snd_pcm_sndio_t) (tr : List (Event × Int)),
      (∀ e ∈ evs, is_transfer_or_cb e = true) → run s evs = some (s2, tr) →
      (sndio_delay s2).2 = (sndio_delay s).2 + frames_returned tr - moves_notified tr := by
  induction evs with
  | nil =>
    intro s s2 tr _ hr
    simp only [run, Option.some.injEq, Prod.mk.injEq] at hr
    obtain ⟨rfl, rfl⟩ := hr
    simp [frames_returned, moves_notified]
  | cons e es ih =>
    intro s s2 tr hev hr
    obtain ⟨s1, r, tr1, hstep, hrun, rfl⟩ := run_cons_some s s2 e es tr hr
    have h1 := (step_transfer_or_cb s s1 e r (hev e (List.mem_cons_self e es)) hstep).2
    have h2 := ih s1 s2 tr1 (fun x hx => hev x (List.mem_cons_of_mem e hx)) hrun
    have h3 := trace_sums_cons e r tr1
    omega

/-- With `bpf ≥ 1` every transfer and every move notification has a result. -/
theorem step_transfer_or_cb_total (s : snd_pcm_sndio_t) (e : Event)
    (he : is_transfer_or_cb e = true) (hb : 1 ≤ s.bpf) :
    ∃ s1 r, step s e = some (s1, r) := by
  cases e with
  | transfer size be =>
    have hb0 : s.bpf ≠ 0 := Nat.pos_iff_ne_zero.mp hb
    simp only [step, sndio_write, hb0, if_false]
    split_ifs <;> exact ⟨_, _, rfl⟩
  | cb delta => exact ⟨_, _, rfl⟩
  | prepare be => simp [is_transfer_or_cb] at he
  | stop => simp [is_transfer_or_cb] at he
  | drain => simp [is_transfer_or_cb] at he
  | hw_params f c r b be => simp [is_transfer_or_cb] at he

/-- With `bpf ≥ 1` every run of transfers and move notifications has a
result. -/
theorem run_transfers_total (evs : List Event) :
    ∀ (s : snd_pcm_sndio_t), (∀ e ∈ evs, is_transfer_or_cb e = true) → 1 ≤ s.bpf →
      ∃ s2 tr, run s evs = some (s2, tr) := by
  induction evs with
  | nil => intro s _ _; exact ⟨s, [], rfl⟩
  | cons e es ih =>
    intro s hev hb
    obtain ⟨s1, r, hstep⟩ := step_transfer_or_cb_total s e (hev e (List.mem_cons_self e es)) hb
    have hb1 : 1 ≤ s1.bpf := by
      rw [(step_transfer_or_cb s s1 e r (hev e (List.mem_cons_self e es)) hstep).1]
      exact hb
    obtain ⟨s2, tr, hrun⟩ := ih s1 (fun x hx => hev x (List.mem_cons_of_mem e hx)) hb1
    exact ⟨s2, (e, r) :: tr, by simp only [run, hstep, hrun]⟩

/-- `sndio_prepare` does not touch `bpf`. -/
theorem sndio_prepare_bpf (s : snd_pcm_sndio_t) (be : prepare_env) :
    (sndio_prepare s be).st.bpf = s.bpf := by
  unfold sndio_prepare sndio_stop
  by_cases h : s.started = 0 <;> simp only [h] <;> split_ifs <;> simp

/-- C5: after prepare (whatever it returns), for every sequence of transfers
and move notifications, `sndio_delay` reports the sum of the frame counts the
successful transfers returned minus the sum of the deltas of the move
notifications; with `bpf ≥ 1` every such sequence runs to its end. -/
theorem sndio_delay_after_prepare (s : snd_pcm_sndio_t) (be : prepare_env)
    (evs : List Event) (hevs : ∀ e ∈ evs, is_transfer_or_cb e = true) :
    (∀ s2 tr, run (sndio_prepare s be).st evs = some (s2, tr) →
      (sndio_delay s2).2 = frames_returned tr - moves_notified tr) ∧
    (1 ≤ s.bpf → ∃ s2 tr, run (sndio_prepare s be).st evs = some (s2, tr)) := by
  constructor
  · intro s2 tr hr
    have h := run_transfers_delay evs (sndio_prepare s be).st s2 tr hevs hr
    have h0 := sndio_prepare_counters s be
    simp only [sndio_delay] at h ⊢
    omega
  · intro hb
    exact run_transfers_total evs (sndio_prepare s be).st hevs
      (by rw [sndio_prepare_bpf]; exact hb)

/-- Witness of C5, the end-to-end scenario: output stream, 16-bit signed
little-endian, 2 channels, hence 4 bytes per frame; after prepare, three full
transfers of 1024 frames and a move notification of 2000 give `ptr = 3072`,
`realptr = 2000` and a delay of 1072, the frames returned (3072) minus the
deltas notified (2000). -/
theorem sndio_delay_after_prepare_witness :
    (∀ e ∈ scenario_steps, is_transfer_or_cb e = true) ∧
    scenario_configured.bpf = 4 ∧
    (run (sndio_prepare scenario_configured scenario_prepare).st scenario_steps).map
      (fun r => (r.1.ptr, r.1.realptr, (sndio_delay r.1).2,
                 frames_returned r.2, moves_notified r.2))
      = some (3072, 2000, 1072, 3072, 2000) ∧
    (∀ s2 tr, run (sndio_prepare scenario_configured scenario_prepare).st scenario_steps
        = some (s2, tr) →
      (sndio_delay s2).2 = frames_returned tr - moves_notified tr) :=
  ⟨by decide, by decide, by decide,
   (sndio_delay_after_prepare scenario_configured scenario_prepare scenario_steps
     (by decide)).1⟩

/-- `sndio_prepare` does not touch `io`. -/
theorem sndio_prepare_io (s : snd_pcm_sndio_t) (be : prepare_env) :
    (sndio_prepare s be).st.io = s.io := by
  unfold sndio_prepare sndio_stop
  by_cases h : s.started = 0 <;> simp only [h] <;> split_ifs <;> simp

/-- With `ptr = 0`, `sndio_pointer` is 0 on an output stream and the buffer
size, converted to `snd_pcm_sframes_t`, on an input stream. -/
theorem sndio_pointer_at_zero (s : snd_pcm_sndio_t) (h0 : s.ptr = 0) :
    sndio_pointer s =
      if s.io.stream = SND_PCM_STREAM_CAPTURE then toSframes s.io.buffer_size else 0 := by
  unfold sndio_pointer
  rw [h0]
  by_cases hc : s.io.stream = SND_PCM_STREAM_CAPTURE
  · simp only [hc, if_true, one_mul]
    have : toUframes 0 = 0 := by decide
    rw [this, Nat.zero_add, Nat.mod_mod]
    unfold toSframes
    rw [Nat.mod_mod]
  · simp only [hc, if_false, zero_mul]
    decide

/-- C8: for every adapter state the host can hand over and every backend
behaviour, right after `sndio_prepare` returns, whether it succeeded or not,
`ptr = 0` and `realptr = 0`, so `sndio_pointer` returns 0 for an output stream
and exactly `io->buffer_size` for an input stream.  The buffer size is one that
fits the `snd_pcm_sframes_t` the function returns, below `2^63` frames: the
adapter itself declares at most 4 MiB of buffer bytes to the host, so every
size the host chooses is far below that. -/
theorem sndio_pointer_after_prepare (s : snd_pcm_sndio_t) (be : prepare_env)
    (hb : s.io.buffer_size < 2 ^ 63) :
    (sndio_prepare s be).st.ptr = 0 ∧ (sndio_prepare s be).st.realptr = 0 ∧
    (s.io.stream = SND_PCM_STREAM_PLAYBACK → sndio_pointer (sndio_prepare s be).st = 0) ∧
    (s.io.stream = SND_PCM_STREAM_CAPTURE →
      sndio_pointer (sndio_prepare s be).st = (s.io.buffer_size : Int)) := by
  have hc := sndio_prepare_counters s be
  have hio := sndio_prepare_io s be
  have hp := sndio_pointer_at_zero (sndio_prepare s be).st hc.1
  rw [hio] at hp
  refine ⟨hc.1, hc.2, ?_, ?_⟩
  · intro hs
    rw [hp, hs]
    exact if_neg (by decide)
  · intro hs
    rw [hp, hs]
    have hlt : s.io.buffer_size < ULONG_RANGE :=
      lt_trans hb (by decide)
    simp only [if_true, toSframes, Nat.mod_eq_of_lt hlt, hb]

/-- Witness of C8: an input stream with a buffer of 4194304 frames, the most
that 4 MiB of buffer bytes hold, that had transferred and was running; after a
prepare on which the backend fails to start, the counters are 0 and
`sndio_pointer` returns 4194304. -/
theorem sndio_pointer_after_prepare_witness :
    (4194304 : Nat) < 2 ^ 63 ∧
    sndio_pointer
      (sndio_prepare
        { open_state SND_PCM_STREAM_CAPTURE with
          io := { stream := SND_PCM_STREAM_CAPTURE, format := SND_PCM_FORMAT_U8,
                  channels := 1, rate := 48000, buffer_size := 4194304 },
          ptr := 777, realptr := 999, started := 1 }
        { sio_start := 0, sio_eof := 0 }).st = 4194304 :=
  ⟨by decide,
   (sndio_pointer_after_prepare
      { open_state SND_PCM_STREAM_CAPTURE with
        io := { stream := SND_PCM_STREAM_CAPTURE, format := SND_PCM_FORMAT_U8,
                channels := 1, rate := 48000, buffer_size := 4194304 },
        ptr := 777, realptr := 999, started := 1 }
      { sio_start := 0, sio_eof := 0 } (by decide)).2.2.2 rfl⟩

/-- C9: `sndio_stop` is idempotent.  For every adapter state, the state after
two calls is the state after one, which is the state before with the started
flag cleared (counters unchanged); the second call issues no backend call, and
the two calls together issue one `sio_stop` if the stream was started and none
otherwise; both calls return 0. -/
theorem sndio_stop_idempotent (s : snd_pcm_sndio_t) :
    (sndio_stop (sndio_stop s).st).st = (sndio_stop s).st ∧
    (sndio_stop s).st = { s with started := 0 } ∧
    (sndio_stop (sndio_stop s).st).calls = [] ∧
    ((sndio_stop s).calls ++ (sndio_stop (sndio_stop s).st).calls).count sio_call.sio_stop
      = (if s.started ≠ 0 then 1 else 0) ∧
    (sndio_stop s).calls = (if s.started ≠ 0 then [sio_call.sio_stop] else []) ∧
    (sndio_stop s).ret = 0 ∧ (sndio_stop (sndio_stop s).st).ret = 0 := by
  unfold sndio_stop
  by_cases h : s.started = 0
  · simp [h]
    cases s
    simp_all
  · simp [h]

/-- C10: for every transfer in which the backend moves no bytes, `sndio_write`
returns `-EIO` if `sio_eof` reports end-of-stream and otherwise returns the 0
of the backend, which is not an error; in both cases the adapter state, `ptr`
and `realptr` included, is as before. -/
theorem sndio_write_no_progress (s : snd_pcm_sndio_t) (size : Nat) (eof : Int) :
    sndio_write s size { moved := 0, sio_eof := eof } =
      some { st := s, ret := (if eof = 1 then - EIO else 0),
             calls := [transfer_call s size, sio_call.sio_eof] } := by
  unfold sndio_write
  by_cases h : eof = 1 <;> simp [h]

/-- C11: for every adapter state, `sndio_prepare` first calls `sio_stop` if and
only if the stream was started, then calls `sio_start`; it returns 0 exactly
when `sio_start` succeeds, and then the started flag is 1; when `sio_start`
fails it asks `sio_eof`, returns `-EBADFD` if that reports end-of-stream and
`-EAGAIN` otherwise, and the started flag is 0. -/
theorem sndio_prepare_outcome (s : snd_pcm_sndio_t) (be : prepare_env) :
    (sndio_prepare s be).calls =
      (if s.started ≠ 0 then [sio_call.sio_stop] else []) ++ [sio_call.sio_start] ++
      (if be.sio_start = 0 then [sio_call.sio_eof] else []) ∧
    ((sndio_prepare s be).ret = 0 ↔ be.sio_start ≠ 0) ∧
    ((sndio_prepare s be).st.started ≠ 0 ↔ be.sio_start ≠ 0) ∧
    (be.sio_start ≠ 0 → (sndio_prepare s be).st.started = 1) ∧
    (be.sio_start = 0 →
      (sndio_prepare s be).ret = (if be.sio_eof = 1 then -EBADFD else -EAGAIN) ∧
      (sndio_prepare s be).st.started = 0) := by
  unfold sndio_prepare sndio_stop
  by_cases hs : s.started = 0 <;> by_cases h1 : be.sio_start = 0 <;>
    by_cases h2 : be.sio_eof = 1 <;> simp [hs, h1, h2, EBADFD, EAGAIN]

/-- A collection loop over `n` indices appends at most `n` values. -/
theorem collect_mask_length_le (n mask : Nat) (arr : Nat → Nat) :
    (collect_mask n mask arr).length ≤ n := by
  unfold collect_mask
  rw [List.length_map]
  exact le_trans (List.length_filter_le _ _) (by rw [List.length_range])

/-- A local array of `n` elements still has `n` elements after a collection
loop that stored at most `n` values. -/
theorem array_after_length (n : Nat) (vals : List Nat) (stack : Nat → Nat)
    (h : vals.length ≤ n) : (array_after n vals stack).length = n := by
  unfold array_after
  simp only [List.length_append, List.length_map, List.length_drop, List.length_range]
  omega

/-- The host calls of `sndio_hw_constraint` once `sio_getcap` and the access
and format declarations went through: the channel declaration is among them,
and so is the rate declaration if the host took the channel declaration. -/
theorem sndio_hw_constraint_declares (stream : snd_pcm_stream_t) (e : hw_constraint_env)
    (hg : e.sio_getcap ≠ 0) (ha : 0 ≤ e.err_access) (hf : 0 ≤ e.err_format) :
    channels_call stream e ∈ (sndio_hw_constraint stream e).2.2 ∧
    (0 ≤ e.err_channels → rate_call e ∈ (sndio_hw_constraint stream e).2.2) := by
  unfold sndio_hw_constraint
  simp only [hg, not_lt.mpr ha, not_lt.mpr hf, if_false]
  constructor
  · split_ifs <;> simp
  · intro hc
    simp only [not_lt.mpr hc, if_false]
    split_ifs <;> simp

/-- C12, what the code does: for every capability report that selects at least
one rate, the rate declaration `sndio_hw_constraint` makes to the host carries
the count `nrate - 1`, so the list the host reads is the list of the selected
rates without its last element: one selected rate is left out. -/
theorem sndio_hw_constraint_rate_list (stream : snd_pcm_stream_t) (e : hw_constraint_env)
    (hg : e.sio_getcap ≠ 0) (ha : 0 ≤ e.err_access) (hf : 0 ≤ e.err_format)
    (hc : 0 ≤ e.err_channels) (hne : collected_rates e.cap ≠ []) :
    rate_call e ∈ (sndio_hw_constraint stream e).2.2 ∧
    registered_uints (rate_call e) = (collected_rates e.cap).dropLast ∧
    (registered_uints (rate_call e)).length + 1 = (collected_rates e.cap).length ∧
    registered_uints (rate_call e) ≠ collected_rates e.cap := by
  have hlen : (collected_rates e.cap).length ≤ SIO_NRATE := collect_mask_length_le _ _ _
  have hpos : 1 ≤ (collected_rates e.cap).length :=
    List.length_pos.mpr hne
  have hcnt : ((((collected_rates e.cap).length : Int) - 1) % (UINT_RANGE : Int)).toNat
      = (collected_rates e.cap).length - 1 := by
    have h16 : (collected_rates e.cap).length ≤ 16 := hlen
    have hU : (UINT_RANGE : Int) = 4294967296 := by decide
    rw [hU]
    omega
  have hreg : registered_uints (rate_call e) = (collected_rates e.cap).dropLast := by
    simp only [rate_call, registered_uints, hcnt, array_after]
    rw [List.take_append_of_le_length (by omega), List.dropLast_eq_take]
  have hl : (registered_uints (rate_call e)).length + 1 = (collected_rates e.cap).length := by
    rw [hreg, List.length_dropLast]
    omega
  refine ⟨(sndio_hw_constraint_declares stream e hg ha hf).2 hc, hreg, hl, ?_⟩
  intro heq
  rw [heq] at hl
  omega

/-- Witness of C12: a report that selects the rates 44100 and 48000; the host
is given the count 1 and reads only 44100. -/
theorem sndio_hw_constraint_rate_list_witness :
    collected_rates stereo_env.cap = [44100, 48000] ∧
    registered_uints (rate_call stereo_env) = [44100] ∧
    rate_call stereo_env ∈ (sndio_hw_constraint SND_PCM_STREAM_PLAYBACK stereo_env).2.2 :=
  ⟨by decide, by decide,
   (sndio_hw_constraint_rate_list SND_PCM_STREAM_PLAYBACK stereo_env (by decide) (by decide)
     (by decide) (by decide) (by decide)).1⟩

/-- C13, what the code does: for every capability report and stream role whose
channel bitmask selects fewer than `SIO_NCHAN` channel counts, the channel
declaration `sndio_hw_constraint` makes to the host carries the count
`ARRAY_SIZE(cap_chans) = SIO_NCHAN` and the list pointer `cap_chans-1`, so the
list the host reads has `SIO_NCHAN` elements, the word below the array first
and then the first `SIO_NCHAN - 1` elements of the array, and is not the list
of the selected channel counts. -/
theorem sndio_hw_constraint_channel_list (stream : snd_pcm_stream_t)
    (e : hw_constraint_env)
    (hg : e.sio_getcap ≠ 0) (ha : 0 ≤ e.err_access) (hf : 0 ≤ e.err_format)
    (hlt : (collected_chans stream e.cap).length < SIO_NCHAN) :
    channels_call stream e ∈ (sndio_hw_constraint stream e).2.2 ∧
    (registered_uints (channels_call stream e)).length = SIO_NCHAN ∧
    registered_uints (channels_call stream e) =
      e.stack_below_cap_chans ::
        (array_after SIO_NCHAN (collected_chans stream e.cap) e.stack_cap_chans).take
          (SIO_NCHAN - 1) ∧
    registered_uints (channels_call stream e) ≠ collected_chans stream e.cap := by
  have harr := array_after_length SIO_NCHAN (collected_chans stream e.cap) e.stack_cap_chans
    (le_of_lt hlt)
  have hreg : registered_uints (channels_call stream e) =
      e.stack_below_cap_chans ::
        (array_after SIO_NCHAN (collected_chans stream e.cap) e.stack_cap_chans).take
          (SIO_NCHAN - 1) := by
    simp only [channels_call, registered_uints, SIO_NCHAN]
    rfl
  have hl : (registered_uints (channels_call stream e)).length = SIO_NCHAN := by
    rw [hreg, List.length_cons, List.length_take, harr]
    simp [SIO_NCHAN]
  refine ⟨(sndio_hw_constraint_declares stream e hg ha hf).1, hl, hreg, ?_⟩
  intro heq
  rw [heq] at hl
  omega

/-- Witness of C13: an output stream on a report that selects stereo only; the
host is given the count 8 and reads the word below the array, the 2, and six
words of the stack. -/
theorem sndio_hw_constraint_channel_list_witness :
    collected_chans SND_PCM_STREAM_PLAYBACK stereo_env.cap = [2] ∧
    registered_uints (channels_call SND_PCM_STREAM_PLAYBACK stereo_env)
      = [0, 2, 0, 0, 0, 0, 0, 0] ∧
    channels_call SND_PCM_STREAM_PLAYBACK stereo_env ∈
      (sndio_hw_constraint SND_PCM_STREAM_PLAYBACK stereo_env).2.2 :=
  ⟨by decide, by decide,
   (sndio_hw_constraint_channel_list SND_PCM_STREAM_PLAYBACK stereo_env (by decide)
     (by decide) (by decide) (by decide)).1⟩

/-- On an accepted format the physical width is the sample width that contains
the bits of the Format Mapper, which is 8 times `SIO_BPS` of them. -/
theorem physical_width_accepted (fmt : snd_pcm_format_t) (b g l : Nat)
    (h : fmt_accepted fmt) :
    snd_pcm_format_physical_width fmt =
      ((spec_containing_width (sndio_alsa_fmttopar fmt b g l).2.1 : Nat) : Int) ∧
    spec_containing_width (sndio_alsa_fmttopar fmt b g l).2.1 =
      8 * SIO_BPS (sndio_alsa_fmttopar fmt b g l).2.1 := by
  cases fmt <;> first
    | exact absurd rfl h
    | exact ⟨rfl, rfl⟩

/-- What `sndio_hw_params` stores as `bpf` and as `par.bits` once the format is
accepted, whatever the backend answers. -/
theorem sndio_hw_params_stores (s : snd_pcm_sndio_t) (be : hw_params_env)
    (hfmt : fmt_accepted s.io.format) :
    (sndio_hw_params s be).st.bpf =
      ((snd_pcm_format_physical_width s.io.format * (s.io.channels : Int))
        % (UINT_RANGE : Int)).toNat / 8 ∧
    (sndio_hw_params s be).st.par.bits =
      (sndio_alsa_fmttopar s.io.format s.par.bits s.par.sig s.par.le).2.1 ∧
    (sndio_hw_params s be).st.par.bps =
      SIO_BPS (sndio_alsa_fmttopar s.io.format s.par.bits s.par.sig s.par.le).2.1 := by
  have h0 := hw_params_fmt_ne_zero s hfmt
  unfold sndio_hw_params
  simp only [h0, if_false]
  split_ifs <;> exact ⟨rfl, rfl, rfl⟩

/-- C14: for every format the Format Mapper accepts and every channel count
the host can choose, the bytes-per-frame `sndio_hw_params` stores is (the bit
width rounded up to its containing sample width of 8, 16 or 32 bits) * channels
/ 8, which is the requested bps, `SIO_BPS` of the bits, times the channel
count; it is at least 1 whenever the channel count is at least 1.  The channel
count is one whose frame width in bits, containing width * channels, fits the
`unsigned int` it is computed in: the adapter itself declares at most 2 MiB of
period bytes and 4 MiB of buffer bytes to the host, so a frame the host chooses
has at most 4194304 channels and at most `2^27` bits. -/
theorem sndio_hw_params_bpf (s : snd_pcm_sndio_t) (be : hw_params_env)
    (hfmt : fmt_accepted s.io.format)
    (hfit : spec_containing_width
        (sndio_alsa_fmttopar s.io.format s.par.bits s.par.sig s.par.le).2.1
        * s.io.channels < UINT_RANGE) :
    (sndio_hw_params s be).st.bpf =
      spec_containing_width (sndio_hw_params s be).st.par.bits * s.io.channels / 8 ∧
    (sndio_hw_params s be).st.bpf = (sndio_hw_params s be).st.par.bps * s.io.channels ∧
    (sndio_hw_params s be).st.par.bps = SIO_BPS (sndio_hw_params s be).st.par.bits ∧
    (1 ≤ s.io.channels → 1 ≤ (sndio_hw_params s be).st.bpf) := by
  obtain ⟨hb, hbits, hbps⟩ := sndio_hw_params_stores s be hfmt
  obtain ⟨hw, h8⟩ := physical_width_accepted s.io.format s.par.bits s.par.sig s.par.le hfmt
  rw [hbits, hbps, hb, hw]
  have hmod : ((((spec_containing_width
        (sndio_alsa_fmttopar s.io.format s.par.bits s.par.sig s.par.le).2.1 : Nat) : Int)
        * (s.io.channels : Int)) % (UINT_RANGE : Int)).toNat
      = spec_containing_width
        (sndio_alsa_fmttopar s.io.format s.par.bits s.par.sig s.par.le).2.1
        * s.io.channels := by
    rw [← Int.natCast_mul, ← Int.natCast_mod, Int.toNat_natCast, Nat.mod_eq_of_lt hfit]
  rw [hmod]
  have hdiv : spec_containing_width
        (sndio_alsa_fmttopar s.io.format s.par.bits s.par.sig s.par.le).2.1
        * s.io.channels / 8
      = SIO_BPS (sndio_alsa_fmttopar s.io.format s.par.bits s.par.sig s.par.le).2.1
        * s.io.channels := by
    rw [h8, Nat.mul_assoc, Nat.mul_div_cancel_left _ (by decide : 0 < 8)]
  have hpos : 1 ≤ SIO_BPS (sndio_alsa_fmttopar s.io.format s.par.bits s.par.sig s.par.le).2.1 := by
    unfold SIO_BPS
    split_ifs <;> decide
  refine ⟨rfl, hdiv, rfl, ?_⟩
  intro hch
  rw [hdiv]
  exact Nat.mul_le_mul hpos hch

/-- Witness of C14: 32-bit signed little-endian on 4194304 channels, a frame
as large as the declared bounds allow for any format, stores 16777216 bytes per
frame, 32 * 4194304 / 8 and 4 * 4194304. -/
theorem sndio_hw_params_bpf_witness :
    scenario_configured.bpf = 4 ∧
    (sndio_hw_params
      { open_state SND_PCM_STREAM_PLAYBACK with
        io := { stream := SND_PCM_STREAM_PLAYBACK, format := SND_PCM_FORMAT_S32_LE,
                channels := 4194304, rate := 48000, buffer_size := 4096 } }
      scenario_hw_params_env).st.bpf = 16777216 ∧
    (sndio_hw_params
      { open_state SND_PCM_STREAM_PLAYBACK with
        io := { stream := SND_PCM_STREAM_PLAYBACK, format := SND_PCM_FORMAT_S32_LE,
                channels := 4194304, rate := 48000, buffer_size := 4096 } }
      scenario_hw_params_env).st.bpf
      = (sndio_hw_params
      { open_state SND_PCM_STREAM_PLAYBACK with
        io := { stream := SND_PCM_STREAM_PLAYBACK, format := SND_PCM_FORMAT_S32_LE,
                channels := 4194304, rate := 48000, buffer_size := 4096 } }
      scenario_hw_params_env).st.par.bps * 4194304 :=
  ⟨by decide, by decide,
   (sndio_hw_params_bpf
      { open_state SND_PCM_STREAM_PLAYBACK with
        io := { stream := SND_PCM_STREAM_PLAYBACK, format := SND_PCM_FORMAT_S32_LE,
                channels := 4194304, rate := 48000, buffer_size := 4096 } }
      scenario_hw_params_env (by decide) (by decide)).2.1⟩

/-- One step that is not a prepare moves `ptr` by the frames a successful
transfer returned and `realptr` by the delta notified; neither amount is
negative when the delta is not. -/
theorem step_counters (s s1 : snd_pcm_sndio_t) (e : Event) (r : Int)
    (he : keeps_counters e = true) (hs : step s e = some (s1, r)) :
    s1.ptr = s.ptr + frames_returned [(e, r)] ∧
    s1.realptr = s.realptr + moves_notified [(e, r)] ∧
    0 ≤ frames_returned [(e, r)] ∧ 0 ≤ moves_notified [(e, r)] := by
  cases e with
  | prepare be => simp [keeps_counters] at he
  | transfer size be =>
    simp only [step, Option.map_eq_some'] at hs
    obtain ⟨o, ho, hoe⟩ := hs
    simp only [Prod.mk.injEq] at hoe
    obtain ⟨rfl, rfl⟩ := hoe
    have h := sndio_write_counters s size be o ho
    simp only [frames_returned, moves_notified]
    refine ⟨by rw [h.2.2]; omega, by rw [h.1]; omega, ?_, le_refl _⟩
    split_ifs <;> omega
  | cb delta =>
    simp only [step, Option.some.injEq, Prod.mk.injEq] at hs
    obtain ⟨rfl, _⟩ := hs
    simp only [keeps_counters, decide_eq_true_eq] at he
    simp only [cb, frames_returned, moves_notified]
    omega
  | stop =>
    simp only [step, Option.some.injEq, Prod.mk.injEq] at hs
    obtain ⟨rfl, _⟩ := hs
    have := sndio_stop_counters s
    simp only [frames_returned, moves_notified]
    omega
  | drain =>
    simp only [step, Option.some.injEq, Prod.mk.injEq] at hs
    obtain ⟨rfl, _⟩ := hs
    simp only [sndio_drain, frames_returned, moves_notified]
    omega
  | hw_params format channels rate buffer_size be =>
    simp only [step, Option.some.injEq, Prod.mk.injEq] at hs
    obtain ⟨rfl, _⟩ := hs
    have := sndio_hw_params_counters
      { s with io := { s.io with format := format, channels := channels, rate := rate,
                                 buffer_size := buffer_size } } be
    simp only at this
    simp only [frames_returned, moves_notified]
    omega

/-- Along a run without prepare whose move notifications report non-negative
deltas, `ptr` grows by the frames the successful transfers returned and
`realptr` by the deltas notified, and neither sum is negative. -/
theorem run_counters (evs : List Event) :
    ∀ (s s2 : snd_pcm_sndio_t) (tr : List (Event × Int)),
      (∀ e ∈ evs, keeps_counters e = true) → run s evs = some (s2, tr) →
      s2.ptr = s.ptr + frames_returned tr ∧ s2.realptr = s.realptr + moves_notified tr ∧
      0 ≤ frames_returned tr ∧ 0 ≤ moves_notified tr := by
  induction evs with
  | nil =>
    intro s s2 tr _ hr
    simp only [run, Option.some.injEq, Prod.mk.injEq] at hr
    obtain ⟨rfl, rfl⟩ := hr
    simp [frames_returned, moves_notified]
  | cons e es ih =>
    intro s s2 tr hev hr
    obtain ⟨s1, r, tr1, hstep, hrun, rfl⟩ := run_cons_some s s2 e es tr hr
    have h1 := step_counters s s1 e r (hev e (List.mem_cons_self e es)) hstep
    have h2 := ih s1 s2 tr1 (fun x hx => hev x (List.mem_cons_of_mem e hx)) hrun
    have h3 := trace_sums_cons e r tr1
    omega

/-- C15, counterexample: a move notification with the delta -1, which the `int`
parameter of `cb` admits, takes `realptr` from 0 to -1: it is lower than
before. -/
theorem cb_negative_delta_lowers_realptr :
    scenario_configured.realptr = 0 ∧
    (run scenario_configured [Event.cb (-1)]).map
      (fun r => (r.1.realptr, decide (scenario_configured.realptr ≤ r.1.realptr)))
      = some (-1, false) := by
  decide

/-- C15, amended: between two prepare calls, along every sequence of transfer,
stop, drain and hw_params steps and of move notifications whose delta is not
negative, both counters are non-decreasing: `ptr` ends at its start value plus
the frame counts the successful transfers returned (a failed transfer leaves it
as it was), and `realptr` ends at its start value plus the deltas notified. -/
theorem counters_monotone_between_prepares (s s2 : snd_pcm_sndio_t) (evs : List Event)
    (tr : List (Event × Int))
    (hevs : ∀ e ∈ evs, keeps_counters e = true) (hr : run s evs = some (s2, tr)) :
    s.ptr ≤ s2.ptr ∧ s.realptr ≤ s2.realptr ∧
    s2.ptr = s.ptr + frames_returned tr ∧ s2.realptr = s.realptr + moves_notified tr := by
  have h := run_counters evs s s2 tr hevs hr
  omega

/-- Witness of C15 amended: the steps of the end-to-end scenario after prepare
take `ptr` from 0 to 3072 and `realptr` from 0 to 2000. -/
theorem counters_monotone_between_prepares_witness :
    (∀ e ∈ scenario_steps, keeps_counters e = true) ∧
    (run (sndio_prepare scenario_configured scenario_prepare).st scenario_steps).map
      (fun r => (r.1.ptr, r.1.realptr)) = some (3072, 2000) ∧
    (∀ s2 tr, run (sndio_prepare scenario_configured scenario_prepare).st scenario_steps
        = some (s2, tr) →
      (sndio_prepare scenario_configured scenario_prepare).st.ptr ≤ s2.ptr ∧
      (sndio_prepare scenario_configured scenario_prepare).st.realptr ≤ s2.realptr) :=
  ⟨by decide, by decide,
   fun s2 tr h =>
     ⟨(counters_monotone_between_prepares _ s2 scenario_steps tr (by decide) h).1,
      (counters_monotone_between_prepares _ s2 scenario_steps tr (by decide) h).2.1⟩⟩

/-- C16, counterexample: on the adapter configured for 16-bit stereo at 48000
Hz, a commit of 32-bit stereo at 96000 Hz that the backend refuses returns
`-EINVAL`, and afterwards the stored bytes-per-frame is 8 instead of 4 and the
stored parameters hold 32 bits, 4 bytes per sample and 96000 Hz instead of 16,
2 and 48000. -/
theorem sndio_hw_params_failure_changes_par :
    (sndio_hw_params scenario_reconfigure setpar_fails).ret = -22 ∧
    (scenario_reconfigure.bpf, scenario_reconfigure.par.bits, scenario_reconfigure.par.bps,
      scenario_reconfigure.par.rate) = (4, 16, 2, 48000) ∧
    ((sndio_hw_params scenario_reconfigure setpar_fails).st.bpf,
      (sndio_hw_params scenario_reconfigure setpar_fails).st.par.bits,
      (sndio_hw_params scenario_reconfigure setpar_fails).st.par.bps,
      (sndio_hw_params scenario_reconfigure setpar_fails).st.par.rate) = (8, 32, 4, 96000) := by
  decide

/-- C16, amended: a failed `sndio_hw_params` does not change the started flag
or the position counters: whenever it returns a negative value they, and `io`,
are the same as before the call.  The stored parameters and bytes-per-frame are
kept only in part.  When the format is not mapped, `bpf` is unchanged and `par`
changes in `pchan` and `rchan` only, which hold the channel count of the host.
When the format is mapped, `bpf` is the new (physical width * channels) / 8 and
`par` holds the new request although the commit failed: `pchan` and `rchan` the
channel count, `bits`, `sig` and `le` what the Format Mapper stores, `bps` the
`SIO_BPS` of the bits, `rate` the rate of the host and `appbufsz` its buffer
size; `msb`, `bufsz`, `xrun` and `round` are as before. -/
theorem sndio_hw_params_failure_keeps (s : snd_pcm_sndio_t) (be : hw_params_env)
    (_hfail : (sndio_hw_params s be).ret < 0) :
    (sndio_hw_params s be).st.started = s.started ∧
    (sndio_hw_params s be).st.ptr = s.ptr ∧
    (sndio_hw_params s be).st.realptr = s.realptr ∧
    (sndio_hw_params s be).st.io = s.io ∧
    (¬ fmt_accepted s.io.format →
      (sndio_hw_params s be).st.bpf = s.bpf ∧
      (sndio_hw_params s be).st.par =
        { s.par with pchan := s.io.channels, rchan := s.io.channels }) ∧
    (fmt_accepted s.io.format →
      (sndio_hw_params s be).st.bpf =
        ((snd_pcm_format_physical_width s.io.format * (s.io.channels : Int))
          % (UINT_RANGE : Int)).toNat / 8 ∧
      (sndio_hw_params s be).st.par =
        { s.par with
          pchan := s.io.channels, rchan := s.io.channels,
          bits := (sndio_alsa_fmttopar s.io.format s.par.bits s.par.sig s.par.le).2.1,
          sig := (sndio_alsa_fmttopar s.io.format s.par.bits s.par.sig s.par.le).2.2.1,
          le := (sndio_alsa_fmttopar s.io.format s.par.bits s.par.sig s.par.le).2.2.2,
          bps := SIO_BPS (sndio_alsa_fmttopar s.io.format s.par.bits s.par.sig s.par.le).2.1,
          rate := s.io.rate,
          appbufsz := s.io.buffer_size % UINT_RANGE }) := by
  refine ⟨?_, ?_, ?_, ?_, ?_, ?_⟩
  · unfold sndio_hw_params; simp only; split_ifs <;> rfl
  · exact (sndio_hw_params_counters s be).1
  · exact (sndio_hw_params_counters s be).2
  · unfold sndio_hw_params; simp only; split_ifs <;> rfl
  · intro hfmt
    have h0 : (sndio_alsa_fmttopar s.io.format s.par.bits s.par.sig s.par.le).1 = 0 := by
      rw [fmttopar_ret_indep]
      unfold fmt_accepted at hfmt
      exact not_not.mp hfmt
    unfold sndio_hw_params
    simp [h0]
  · intro hfmt
    have h0 := hw_params_fmt_ne_zero s hfmt
    unfold sndio_hw_params
    simp only [h0, if_false]
    split_ifs <;> exact ⟨rfl, rfl⟩

/-- Witness of C16 amended: the refused commit of the counterexample returns
-22 and leaves the started flag, the counters and `io` as they were. -/
theorem sndio_hw_params_failure_keeps_witness :
    (sndio_hw_params scenario_reconfigure setpar_fails).ret < 0 ∧
    (sndio_hw_params scenario_reconfigure setpar_fails).st.started
      = scenario_reconfigure.started ∧
    (sndio_hw_params scenario_reconfigure setpar_fails).st.ptr = scenario_reconfigure.ptr ∧
    (sndio_hw_params scenario_reconfigure setpar_fails).st.realptr
      = scenario_reconfigure.realptr :=
  ⟨by decide,
   (sndio_hw_params_failure_keeps scenario_reconfigure setpar_fails (by decide)).1,
   (sndio_hw_params_failure_keeps scenario_reconfigure setpar_fails (by decide)).2.1,
   (sndio_hw_params_failure_keeps scenario_reconfigure setpar_fails (by decide)).2.2.1⟩

/-- The byte length asked of the backend is at most the frames requested times
the bytes per frame. -/
theorem transfer_bufsz_le (s : snd_pcm_sndio_t) (size : Nat) :
    transfer_bufsz s size ≤ size * s.bpf := by
  unfold transfer_bufsz
  exact le_trans (Nat.mod_le _ _) (Nat.mod_le _ _)

/-- C17: for every transfer request of `size` frames with `bpf ≥ 1`, whenever
the backend moves no more bytes than the byte length it was asked for (`size *
bpf` truncated to an `unsigned int`), `sndio_write` returns, and its result is
either `-EIO` or a frame count between 0 and `size` inclusive. -/
theorem sndio_write_result_bounds (s : snd_pcm_sndio_t) (size : Nat) (be : transfer_env)
    (hbpf : 1 ≤ s.bpf) (hmoved : be.moved ≤ transfer_bufsz s size) :
    ∃ o, sndio_write s size be = some o ∧
      (o.ret = - EIO ∨ (0 ≤ o.ret ∧ o.ret ≤ (size : Int))) := by
  have hlt : be.moved < UINT_RANGE := lt_of_le_of_lt hmoved (transfer_bufsz_lt s size)
  have hn : be.moved % UINT_RANGE = be.moved := Nat.mod_eq_of_lt hlt
  have hb : s.bpf ≠ 0 := Nat.pos_iff_ne_zero.mp hbpf
  have hq : be.moved / s.bpf ≤ size :=
    Nat.div_le_of_le_mul (by
      have := le_trans hmoved (transfer_bufsz_le s size)
      rw [Nat.mul_comm] at this
      exact this)
  unfold sndio_write
  simp only [hn, hb, if_false]
  split_ifs with h1 h2
  · exact ⟨_, rfl, Or.inl rfl⟩
  · refine ⟨_, rfl, Or.inr ⟨?_, ?_⟩⟩
    · exact Int.natCast_nonneg _
    · rw [h1]; exact Int.natCast_nonneg _
  · refine ⟨_, rfl, Or.inr ⟨Int.natCast_nonneg _, ?_⟩⟩
    exact Int.ofNat_le.mpr hq

/-- Witness of C17: 1024 frames of 4 bytes are requested and the backend moves
1000 of the 4096 bytes: the result is 250, between 0 and 1024. -/
theorem sndio_write_result_bounds_witness :
    (1 ≤ scenario_configured.bpf ∧ 1000 ≤ transfer_bufsz scenario_configured 1024) ∧
    (sndio_write scenario_configured 1024 { moved := 1000, sio_eof := 0 }).map
      (fun o => o.ret) = some 250 ∧
    (∃ o, sndio_write scenario_configured 1024 { moved := 1000, sio_eof := 0 } = some o ∧
      (o.ret = - EIO ∨ (0 ≤ o.ret ∧ o.ret ≤ ((1024 : Nat) : Int)))) :=
  ⟨by decide, by decide,
   sndio_write_result_bounds scenario_configured 1024 { moved := 1000, sio_eof := 0 }
     (by decide) (by decide)⟩

/-- On an accepted format `sndio_hw_params` asks the backend: `sio_setpar` is
its first backend call, and it returns `-EINVAL` only when `sio_setpar` or
`sio_getpar` failed. -/
theorem sndio_hw_params_reaches_backend (s : snd_pcm_sndio_t) (be : hw_params_env)
    (hfmt : fmt_accepted s.io.format) :
    (sndio_hw_params s be).calls.head? =
      some (sio_call.sio_setpar (sndio_hw_params s be).st.par) ∧
    ((sndio_hw_params s be).ret = -EINVAL → be.sio_setpar = 0 ∨ be.sio_getpar = 0) := by
  have h0 := hw_params_fmt_ne_zero s hfmt
  unfold sndio_hw_params
  simp only [h0, if_false]
  split_ifs with h1 h2 h3
  · exact ⟨rfl, fun _ => Or.inl h1⟩
  · exact ⟨rfl, fun _ => Or.inr h2⟩
  · refine ⟨rfl, fun h => ?_⟩
    simp [EINVAL] at h
  · refine ⟨rfl, fun h => ?_⟩
    simp [EINVAL] at h

/-- C18: every format of the allowlist `cap_fmts` that the adapter advertises is
accepted by the Format Mapper, so for such a format `sndio_hw_params` never
takes the unsupported-format return: it always goes on to ask the backend
(`sio_setpar` is called), and it returns `-EINVAL` only when `sio_setpar` or
`sio_getpar` failed. -/
theorem cap_fmts_accepted (fmt : snd_pcm_format_t) (hmem : fmt ∈ cap_fmts) :
    fmt_accepted fmt ∧
    (sndio_alsa_fmttopar fmt 0 0 0).1 = 1 ∧
    (∀ (s : snd_pcm_sndio_t) (be : hw_params_env), s.io.format = fmt →
      (sndio_hw_params s be).calls.head? =
        some (sio_call.sio_setpar (sndio_hw_params s be).st.par) ∧
      ((sndio_hw_params s be).ret = -EINVAL → be.sio_setpar = 0 ∨ be.sio_getpar = 0)) := by
  have hacc : fmt_accepted fmt ∧ (sndio_alsa_fmttopar fmt 0 0 0).1 = 1 := by
    simp only [cap_fmts, List.mem_cons, List.mem_singleton, List.not_mem_nil, or_false] at hmem
    rcases hmem with h | h | h | h | h | h | h <;> subst h <;> exact ⟨by decide, rfl⟩
  refine ⟨hacc.1, hacc.2, ?_⟩
  intro s be hs
  exact sndio_hw_params_reaches_backend s be (by rw [hs]; exact hacc.1)

/-- Witness of C18: `SND_PCM_FORMAT_S24_LE` is advertised and accepted. -/
theorem cap_fmts_accepted_witness :
    SND_PCM_FORMAT_S24_LE ∈ cap_fmts ∧ fmt_accepted SND_PCM_FORMAT_S24_LE ∧
    cap_fmts.all (fun fmt => decide (fmt_accepted fmt)) = true :=
  ⟨by decide, (cap_fmts_accepted SND_PCM_FORMAT_S24_LE (by decide)).1, by decide⟩

end PcmSndio
